import Mathlib

/-!
Verification development for the PLZ build tool (`src/plz`).

The definitions below are a shallow embedding of the Python source:

* `src/plz/build.py`    — the layered build pipeline (`build_zip`, `build_image`,
  `zip_package`, `get_file_hash`, `get_file_hashes`);
* `src/plz/docker.py`   — external docker operations, modelled as an explicit
  environment of outcomes plus an action trace;
* `src/plz/plzdocker.py` — the sandbox package diff engine
  (`copy_system_packages`, `list_system_packages`, `pip_install`).

External effects (docker daemon, hashing library, the zip encoder) are
parameters of the model; every local decision the Python code makes (cache
gates, info-document handling, classification of packages, ignore filtering)
is translated directly from the source.
-/

namespace Plz

/-! ## Python string comparison

Python compares `str` values lexicographically by code point
(`python_version < MIN_PYTHON_VERSION` in `build.py` lines 378-389).
`pyCharsLt` is that comparison on the underlying character lists. -/

def pyCharsLt : List Char → List Char → Bool
  | [], [] => false
  | [], _ :: _ => true
  | _ :: _, [] => false
  | a :: as, b :: bs =>
    if a < b then true
    else if b < a then false
    else pyCharsLt as bs

def pylt (a b : String) : Bool :=
  pyCharsLt a.toList b.toList

/-! ## `pathlib` name helpers

`PurePath.suffix` (CPython): the extension of the final component; empty
unless the last dot index `i` satisfies `0 < i < len(name) - 1`.
`PurePath.suffixes` (CPython): drop leading dots, split on `.`, return each
further component with a leading dot (empty when the name ends in a dot). -/

def lastDotIdx (cs : List Char) : Option Nat :=
  match cs.reverse.findIdx? (· = '.') with
  | none => none
  | some j => some (cs.length - 1 - j)

def pySuffix (name : String) : String :=
  let cs := name.toList
  match lastDotIdx cs with
  | none => ""
  | some i => if 0 < i ∧ i < cs.length - 1 then String.mk (cs.drop i) else ""

def pySuffixes (name : String) : List String :=
  if name.toList.getLast? = some '.' then []
  else
    match (name.toList.dropWhile (· = '.')).splitOnP (· = '.') with
    | [] => []
    | _ :: rest => rest.map (fun part => String.mk ('.' :: part))

/-- Last `/`-separated component of a posix path (`PurePosixPath(p).name`). -/
def posixName (path : String) : String :=
  match (path.toList.splitOnP (· = '/')).reverse.find? (· ≠ []) with
  | none => ""
  | some cs => String.mk cs

/-! ## File trees and content fingerprinting (`build.py` lines 720-751)

A file system object is a file with byte contents or a directory of named
children.  `sha256hex` — the digest of `hashlib.sha256(...).hexdigest()` —
is an external function and is passed as a parameter. -/

inductive PathObj where
  | file : List Nat → PathObj
  | dir : List (String × PathObj) → PathObj
deriving Repr

mutual

def objWeight : PathObj → Nat
  | .file _ => 1
  | .dir children => 1 + pairsWeight children

def pairsWeight : List (String × PathObj) → Nat
  | [] => 0
  | c :: cs => objWeight c.2 + pairsWeight cs

end

theorem objWeight_pos (o : PathObj) : 0 < objWeight o := by
  cases o <;> simp [objWeight]

theorem pairsWeight_append (a b : List (String × PathObj)) :
    pairsWeight (a ++ b) = pairsWeight a + pairsWeight b := by
  induction a with
  | nil => simp [pairsWeight]
  | cons c cs ih => simp [pairsWeight, ih]; omega

theorem pairsWeight_map_rename (f : String → String)
    (cs : List (String × PathObj)) :
    pairsWeight (cs.map (fun c => (f c.1, c.2))) = pairsWeight cs := by
  induction cs with
  | nil => simp [pairsWeight]
  | cons c cs ih => simp [pairsWeight, ih]

/-- `get_file_hash` (`build.py` lines 743-750): empty contents map to `None`
(Python returns `None` for falsy `contents`), otherwise the sha256 digest. -/
def get_file_hash (sha256hex : List Nat → String) (contents : List Nat) :
    Option String :=
  if contents = [] then none else some (sha256hex contents)

/-- `get_file_hashes` (`build.py` lines 720-740): worklist traversal mapping
each file path to its hash; entries whose hash is falsy (`None`) are dropped;
directories expand to their children.  The result models the Python dict
`hashes` (dict comparisons in the pipeline are order-insensitive; the
traversal here lists files in a fixed deterministic order). -/
def get_file_hashes (sha256hex : List Nat → String) :
    List (String × PathObj) → List (String × String)
  | [] => []
  | (path, PathObj.file contents) :: rest =>
    match get_file_hash sha256hex contents with
    | some value => (path, value) :: get_file_hashes sha256hex rest
    | none => get_file_hashes sha256hex rest
  | (path, PathObj.dir children) :: rest =>
    get_file_hashes sha256hex
      ((children.map (fun c => (path ++ "/" ++ c.1, c.2))) ++ rest)
termination_by paths => pairsWeight paths
decreasing_by
  all_goals simp [pairsWeight, pairsWeight_append, pairsWeight_map_rename,
    objWeight]

/-! ## The archive assembler: `zip_package` (`build.py` lines 665-717)

Caller-supplied ignore sets are unioned with the defaults (`ignore | IGNORE`,
`ignore_filetypes | IGNORE_FILETYPES`; `None` means just the defaults).
The worklist pops from the front (`remaining.pop(0)`) and appends directory
children, checking each item's final path component (`path.name`) against the
ignore set and its `pathlib` suffix against the filetype set before either
expanding it (directories) or writing it (files).

The source also tests `destination in ignore`; `destination` is a
`pathlib.Path` while `ignore` holds `str` values, and in Python a `Path`
never compares equal to a `str`, so that membership test is always false and
contributes nothing to the model.

An archive entry records the written file's name, its stored relative path
(`zipped_prefix` components already prepended), and its contents. -/

def IGNORE : List String := ["__pycache__", "awscli", "boto3", "botocore"]

def IGNORE_FILETYPES : List String := [".dist-info", ".egg-info", ".pyc"]

structure ZipItem where
  name : String
  obj : PathObj
  dest : List String
deriving Repr

structure ZipEntry where
  name : String
  dest : List String
  contents : List Nat
deriving Repr, DecidableEq

def itemsWeight (items : List ZipItem) : Nat :=
  (items.map (fun i => objWeight i.obj)).sum

theorem itemsWeight_append (a b : List ZipItem) :
    itemsWeight (a ++ b) = itemsWeight a + itemsWeight b := by
  simp [itemsWeight]

theorem pairsWeight_eq_sum (cs : List (String × PathObj)) :
    pairsWeight cs = (cs.map (fun c => objWeight c.2)).sum := by
  induction cs with
  | nil => simp [pairsWeight]
  | cons c cs ih => simp [pairsWeight, ih]

theorem itemsWeight_cons (i : ZipItem) (rest : List ZipItem) :
    itemsWeight (i :: rest) = objWeight i.obj + itemsWeight rest := by
  simp [itemsWeight]

theorem itemsWeight_ofChildren (d : List String)
    (children : List (String × PathObj)) :
    itemsWeight (children.map (fun c => ⟨c.1, c.2, d ++ [c.1]⟩)) =
      pairsWeight children := by
  induction children with
  | nil => simp [itemsWeight, pairsWeight]
  | cons c cs ih =>
    simp only [List.map_cons, itemsWeight_cons, pairsWeight, ih]

def zip_package_go (ignore ignore_filetypes : List String)
    (zippedPre : List String) : List ZipItem → List ZipEntry
  | [] => []
  | item :: rest =>
    if item.name ∈ ignore ∨ pySuffix item.name ∈ ignore_filetypes then
      zip_package_go ignore ignore_filetypes zippedPre rest
    else
      match h : item.obj with
      | .dir children =>
        zip_package_go ignore ignore_filetypes zippedPre
          (rest ++ children.map
            (fun c => ⟨c.1, c.2, item.dest ++ [c.1]⟩))
      | .file contents =>
        ⟨item.name, zippedPre ++ item.dest, contents⟩ ::
          zip_package_go ignore ignore_filetypes zippedPre rest
termination_by items => itemsWeight items
decreasing_by
  · simp [itemsWeight]
    have := objWeight_pos (ZipItem.obj item)
    omega
  · rw [itemsWeight_append, itemsWeight_ofChildren, itemsWeight_cons, h,
      objWeight]
    omega
  · simp [itemsWeight]
    have := objWeight_pos (ZipItem.obj item)
    omega

/-- `zip_package` (`build.py` lines 665-717).  `files` are the top-level
paths handed to the assembler; each starts with destination equal to its own
name (`path.relative_to(path.parent)`).  `ignoreArg`/`filetypesArg` are the
caller's optional sets, unioned with the defaults. -/
def ignoreUnion : Option (List String) → List String
  | none => IGNORE
  | some ig => ig ++ IGNORE

def filetypesUnion : Option (List String) → List String
  | none => IGNORE_FILETYPES
  | some ft => ft ++ IGNORE_FILETYPES

def zip_package (files : List (String × PathObj)) (zippedPre : List String)
    (ignoreArg : Option (List String))
    (filetypesArg : Option (List String)) : List ZipEntry :=
  zip_package_go (ignoreUnion ignoreArg) (filetypesUnion filetypesArg)
    zippedPre (files.map (fun f => ⟨f.1, f.2, [f.1]⟩))

/-! ## Build state documents (`build.py` lines 22-34, 101-124, 401-415)

`package-info.json` and `zip-info.json` are JSON dictionaries; `dict.get`
returns `None` for an absent key, so each known field is an `Option` (a JSON
`null` and an absent key are indistinguishable through `dict.get`, and the
model conflates them the same way).  A document on disk is missing,
unparsable, or parsed. -/

abbrev Hashes := List (String × String)

def PACKAGE_INFO_VERSION : String := "0.2.0"

def DEFAULT_PYTHON : String := "3.9"

def MIN_PYTHON_VERSION : String := "3.7"

def MAX_PYTHON_VERSION : String := "3.9"

structure PackageInfo where
  version : Option String := none
  platform : Option String := none
  pythonVersion : Option String := none
  system : Option (List String) := none
  python : Option Hashes := none
  constraint : Option Hashes := none
  files : Option Hashes := none
deriving Repr, DecidableEq

def PackageInfo.empty : PackageInfo := {}

/-- `zip-info.json` fields (`"prefix"` is modelled as the list of path
components of the stored prefix string). -/
structure ZipInfo where
  version : Option String := none
  image_id : Option String := none
  container : Option String := none
  files : Option Hashes := none
  pre : Option (List String) := none
  zip : Option String := none
deriving Repr, DecidableEq

def ZipInfo.empty : ZipInfo := {}

inductive InfoFile (α : Type) where
  | missing
  | unparsable
  | parsed (info : α)
deriving Repr, DecidableEq

/-- Failure classes surfaced by the pipeline: `jsonDecode` is the
`json.JSONDecodeError` escaping `json.load`; `badPythonVersion` is the
`ValueError` of `build.py` line 386; `external msg` is any error raised by a
docker/subprocess operation and surfaced unmodified. -/
inductive BuildError where
  | jsonDecode
  | badPythonVersion
  | external (msg : String)
deriving Repr, DecidableEq

/-- Loading `package-info.json` (`build.py` lines 401-415): a missing file
yields the default document; an existing file is parsed by `json.load`
(raising on unparsable content, before the `try` block); a version mismatch
resets to the default document. -/
def load_package_info : InfoFile PackageInfo → Except BuildError PackageInfo
  | .missing => .ok { version := some PACKAGE_INFO_VERSION }
  | .unparsable => .error .jsonDecode
  | .parsed info =>
    if info.version = some PACKAGE_INFO_VERSION then .ok info
    else .ok { version := some PACKAGE_INFO_VERSION }

/-- Loading `zip-info.json` (`build.py` lines 111-124).  The boolean is the
forced-`rezip` flag the loader sets on a version mismatch. -/
def load_zip_info : InfoFile ZipInfo → Except BuildError (ZipInfo × Bool)
  | .missing => .ok ({ version := some PACKAGE_INFO_VERSION }, false)
  | .unparsable => .error .jsonDecode
  | .parsed info =>
    if info.version = some PACKAGE_INFO_VERSION then .ok (info, false)
    else .ok ({ version := some PACKAGE_INFO_VERSION }, true)

/-! ## Action traces

Every externally visible operation the pipeline performs is recorded as an
action.  `verifyRunning` (`docker ps`), `getContainers` (`docker ps`
filtered), log output and the idempotent `mkdir(exist_ok=True)` of the build
directory read or touch nothing the pipeline caches; everything else mutates
the docker sandbox, the image store, the build tree or the artifact. -/

inductive Action where
  | verifyRunning
  | logWarning
  | getContainers (name : String)
  | makeDir (path : String)
  | writeDockerFile (kind : String)
  | buildImage (name : String)
  | deleteImage (name : String)
  | tagImage (src dst : String)
  | startContainer (image name : String)
  | stopContainer (id : String)
  | deleteContainer (id : String)
  | copyFromContainer (id : String) (src dst : String)
  | removeTree (path : String)
  | writeZip (path : String)
  | unlinkFile (path : String)
deriving Repr, DecidableEq

def Action.isMutation : Action → Bool
  | .verifyRunning => false
  | .logWarning => false
  | .getContainers _ => false
  | .makeDir _ => false
  | _ => true

/-! ## `build_image` (`build.py` lines 286-583)

The docker daemon is modelled by `ImageOps`: the outcome of each external
query or build the function can perform.  `get_*` are the
`docker.get_image` results for the three layer names; `build_*` are the
`docker.build_image` outcomes (`ok` returns the new image id, `error` an
exception message); `start_freeze`/`freeze_containers` serve the optional
freeze block.  ECR upload (lines 573-581) is out of scope (spec §1, §6).

Image/tag naming and validation (lines 356-373) only compute the three layer
names, which are passed in here; pip config detection (lines 493-499) only
affects dockerfile contents and is absorbed into the `writeDockerFile`
action. -/

structure ImageOps where
  get_system : Option String
  get_python : Option String
  get_lambda : Option String
  build_system : Except String String
  build_python : Except String String
  build_lambda : Except String String
  start_freeze : Except String String
  freeze_containers : List String
deriving Repr

structure ImgOut where
  actions : List Action
  result : Except BuildError String
  persisted : Option PackageInfo
  system_id : Option String
  python_id : Option String
  lambda_id : Option String
deriving Repr

/-- The info dictionary as the `try` block fills it in (lines 450-454);
stage execution never modifies it further. -/
def mkImageInfo (info0 : PackageInfo) (platform python_version : String)
    (system_packages : List String)
    (python_hashes constraint_hashes : Hashes) : PackageInfo :=
  { info0 with
    platform := some platform
    pythonVersion := some python_version
    system := some system_packages
    python := some python_hashes
    constraint := some constraint_hashes }

/-- The freeze block (lines 544-559): delete the matching containers, start
a fresh one from the lambda image, copy the freeze file out, stop and delete
it. -/
def freeze_block (ops : ImageOps) (container_name lambda_image : String) :
    List Action × Option String :=
  let acts := [Action.getContainers container_name] ++
    ops.freeze_containers.map Action.deleteContainer ++
    [Action.startContainer lambda_image container_name]
  match ops.start_freeze with
  | .error msg => (acts, some msg)
  | .ok cid =>
    (acts ++ [Action.copyFromContainer cid "/root/frozen.txt" "freeze_file",
      Action.stopContainer cid, Action.deleteContainer cid], none)

/-- Intermediate state of the `try` block of `build_image`: the action trace
so far, the pending exception if one was raised, and the current ids of the
three image layers. -/
structure StageSt where
  acts : List Action
  err : Option String
  system_id : Option String
  python_id : Option String
  lambda_id : Option String
deriving Repr

/-- Sequencing inside the `try` block: once an exception is pending no
further stage runs. -/
def stageSeq (st : StageSt) (f : StageSt → StageSt) : StageSt :=
  if st.err.isSome then st else f st

/-- Lines 460-481: the system stage — rebuild the system layer (deleting the
stale layers above it first) when its gate is dirty or the image is
missing. -/
def image_stage_system (ops : ImageOps)
    (system_image python_image lambda_image : String)
    (rebuild_system : Bool) (st : StageSt) : StageSt :=
  if rebuild_system || st.system_id.isNone then
    let acts := st.acts ++ [Action.writeDockerFile "system"]
      ++ (if st.lambda_id.isSome then [Action.deleteImage lambda_image]
        else [])
      ++ (if st.python_id.isSome then [Action.deleteImage python_image]
        else [])
      ++ (if st.system_id.isSome then [Action.deleteImage system_image]
        else [])
      ++ [Action.buildImage system_image]
    match ops.build_system with
    | .error msg =>
      { acts := acts, err := some msg, system_id := none, python_id := none
        lambda_id := none }
    | .ok sid =>
      { acts := acts, err := none, system_id := some sid, python_id := none
        lambda_id := none }
  else st

/-- Lines 483-521: the python stage — with requirements, rebuild the python
layer; without, tag the system layer as the python layer. -/
def image_stage_python (ops : ImageOps)
    (system_image python_image lambda_image : String)
    (rebuild_python reqsEmpty : Bool) (st : StageSt) : StageSt :=
  if rebuild_python || st.python_id.isNone then
    let acts := st.acts
      ++ (if st.lambda_id.isSome then [Action.deleteImage lambda_image]
        else [])
      ++ (if st.python_id.isSome then [Action.deleteImage python_image]
        else [])
    if reqsEmpty then
      { acts := acts ++ [Action.tagImage system_image python_image]
        err := none, system_id := st.system_id, python_id := st.system_id
        lambda_id := none }
    else
      let acts := acts ++ [Action.writeDockerFile "python",
        Action.buildImage python_image]
      match ops.build_python with
      | .error msg =>
        { acts := acts, err := some msg, system_id := st.system_id
          python_id := none, lambda_id := none }
      | .ok pid =>
        { acts := acts, err := none, system_id := st.system_id
          python_id := some pid, lambda_id := none }
  else st

/-- Lines 523-542: the lambda stage — with bundled files, rebuild the lambda
layer; without, tag the python layer as the lambda layer. -/
def image_stage_lambda (ops : ImageOps) (python_image lambda_image : String)
    (update_files filesEmpty : Bool) (st : StageSt) : StageSt :=
  if update_files || st.lambda_id.isNone then
    let acts := st.acts
      ++ (if st.lambda_id.isSome then [Action.deleteImage lambda_image]
        else [])
    if filesEmpty then
      { acts := acts ++ [Action.tagImage python_image lambda_image]
        err := none, system_id := st.system_id, python_id := st.python_id
        lambda_id := st.python_id }
    else
      let acts := acts ++ [Action.writeDockerFile "lambda",
        Action.buildImage lambda_image]
      match ops.build_lambda with
      | .error msg =>
        { acts := acts, err := some msg, system_id := st.system_id
          python_id := st.python_id, lambda_id := none }
      | .ok lid =>
        { acts := acts, err := none, system_id := st.system_id
          python_id := st.python_id, lambda_id := some lid }
  else st

/-- Lines 544-559 wrapped as a stage. -/
def image_stage_freeze (ops : ImageOps)
    (container_name lambda_image : String) (freeze : Bool)
    (st : StageSt) : StageSt :=
  if freeze then
    match freeze_block ops container_name lambda_image with
    | (facts, some msg) =>
      { st with acts := st.acts ++ facts, err := some msg }
    | (facts, none) => { st with acts := st.acts ++ facts }
  else st

/-- Lines 560-571 of `build_image`: a pending exception clears the whole
document before the `finally` persists it and the (external) error
propagates; otherwise the filled-in document is persisted and the lambda
image name returned. -/
def finishImage (lambda_image : String) (info1 : PackageInfo)
    (st4 : StageSt) : ImgOut :=
  match st4.err with
  | some msg =>
    { actions := st4.acts, result := .error (.external msg)
      persisted := some PackageInfo.empty, system_id := st4.system_id
      python_id := st4.python_id, lambda_id := st4.lambda_id }
  | none =>
    { actions := st4.acts, result := .ok lambda_image
      persisted := some info1, system_id := st4.system_id
      python_id := st4.python_id, lambda_id := st4.lambda_id }

/-- The body of `build_image` past the info-document load (lines 417-571):
hash the inputs, evaluate the three cache gates against the loaded
document, fill in the new document, run the staged try block, and finish. -/
def build_image_core (ops : ImageOps) (sha256hex : List Nat → String)
    (files requirements constraints : List (String × PathObj))
    (system_packages : List String) (platform python_version : String)
    (system_image python_image lambda_image container_name : String)
    (freeze rebuild : Bool) (info0 : PackageInfo)
    (acts0 : List Action) : ImgOut :=
  -- lines 417-419
  let file_hashes := get_file_hashes sha256hex files
  let python_hashes := get_file_hashes sha256hex requirements
  let constraint_hashes := get_file_hashes sha256hex constraints
  -- lines 434-445: the three cache gates
  let rebuild_system : Bool := rebuild
    || info0.system ≠ some system_packages
    || info0.platform ≠ some platform
    || info0.pythonVersion ≠ some python_version
  let rebuild_python : Bool := rebuild_system
    || info0.python.getD [] ≠ python_hashes
    || info0.constraint.getD [] ≠ constraint_hashes
  let update_files : Bool := info0.files.getD [] ≠ file_hashes
  -- lines 450-454
  let info1 := mkImageInfo info0 platform python_version system_packages
    python_hashes constraint_hashes
  -- line 447 (docker.verify_running), lines 456-458 (the current ids)
  let st0 : StageSt := ⟨acts0 ++ [Action.verifyRunning], none,
    ops.get_system, ops.get_python, ops.get_lambda⟩
  -- lines 460-559: the staged body of the try block
  let st1 := image_stage_system ops system_image python_image
    lambda_image rebuild_system st0
  let st2 := stageSeq st1 (image_stage_python ops system_image
    python_image lambda_image rebuild_python requirements.isEmpty)
  let st3 := stageSeq st2 (image_stage_lambda ops python_image
    lambda_image update_files files.isEmpty)
  let st4 := stageSeq st3 (image_stage_freeze ops container_name
    lambda_image freeze)
  -- lines 560-571: except clears the document, finally persists it
  finishImage lambda_image info1 st4

def build_image_model (ops : ImageOps) (infoFile : InfoFile PackageInfo)
    (sha256hex : List Nat → String)
    (files requirements constraints : List (String × PathObj))
    (system_packages : List String) (platform python_version : String)
    (system_image python_image lambda_image container_name : String)
    (directory : String) (freeze rebuild : Bool) : ImgOut :=
  -- line 338: directory.mkdir(parents=True, exist_ok=True)
  let acts0 : List Action := [.makeDir directory]
  -- lines 378-389: python version gate, by Python string comparison
  let acts0 := if pylt MAX_PYTHON_VERSION python_version
    then acts0 ++ [.logWarning] else acts0
  if ¬ pylt MAX_PYTHON_VERSION python_version ∧
      pylt python_version MIN_PYTHON_VERSION then
    { actions := acts0, result := .error .badPythonVersion, persisted := none
      system_id := ops.get_system, python_id := ops.get_python
      lambda_id := ops.get_lambda }
  else
    -- lines 401-415: load package-info.json (raises before the try block)
    match load_package_info infoFile with
    | .error e =>
      { actions := acts0, result := .error e, persisted := none
        system_id := ops.get_system, python_id := ops.get_python
        lambda_id := ops.get_lambda }
    | .ok info0 =>
      build_image_core ops sha256hex files requirements constraints
        system_packages platform python_version system_image python_image
        lambda_image container_name freeze rebuild info0 acts0


/-! ## Container acquisition inside `build_zip` (`build.py` lines 172-195)

`info.get("container")` is looked up in the live container list; when it is
`None` or no longer listed, `docker.start_container` is attempted.  On an
exception: with a recorded container id the code deletes that container and
issues a second `start_container` attempt for the same name; with no
recorded id the exception is re-raised.  `start1`/`start2` are the outcomes
of the two possible attempts. -/

def acquire_container (recorded : Option String) (containers : List String)
    (start1 start2 : Except String String)
    (image container_name : String) : List Action × Except String String :=
  let acts0 := [Action.getContainers container_name]
  match recorded with
  | some cid =>
    if cid ∈ containers then (acts0, .ok cid)
    else
      match start1 with
      | .ok newId => (acts0 ++ [Action.startContainer image container_name],
          .ok newId)
      | .error _ =>
        (acts0 ++ [Action.startContainer image container_name,
          Action.deleteContainer cid,
          Action.startContainer image container_name], start2)
  | none =>
    match start1 with
    | .ok newId => (acts0 ++ [Action.startContainer image container_name],
        .ok newId)
    | .error e => (acts0 ++ [Action.startContainer image container_name],
        .error e)

/-! ## `build_zip` (`build.py` lines 37-252)

`ZipWorld` fixes the outcomes of every external interaction `build_zip` can
perform beyond those of the nested `build_image` call: the live container
list, the two possible `start_container` outcomes, the package-location
listings copied out of the container, and the current state of the package
directory and of the zip artifact.  The S3 upload (lines 254-281) is out of
scope (spec §1, §6).  `zipEncode` is the external zip encoder: the bytes
written for a given entry list. -/

structure ZipWorld where
  img : ImageOps
  pkg_info_file : InfoFile PackageInfo
  containers : List String
  start1 : Except String String
  start2 : Except String String
  base_locations : List String
  installed_locations : List String
  pkgdir_exists : Bool
  pkgdir_contents : List (String × PathObj)
  zip_state : Option (List Nat)

structure PyStageOut where
  err : Option BuildError
  info : ZipInfo
  actions : List Action
  rezip : Bool
  pkgdir_exists : Bool
  package_files : List (String × PathObj)
  img : Option ImgOut

/-- `build.py` lines 127-214: the python-dependency part of the `build_zip`
body — either clear the package directory (no requirements) or run the
nested `build_image`, refresh the package directory from a container when
the image changed, and list the package files. -/
def zip_python_stage (w : ZipWorld) (sha256hex : List Nat → String)
    (requirements constraints : List (String × PathObj))
    (system_packages : List String)
    (image_name system_image python_image lambda_image container_name :
      String)
    (platform python_version directory : String)
    (freeze rebuild : Bool) (info0 : ZipInfo) (rezip0 : Bool) : PyStageOut :=
  if requirements.isEmpty then
    -- lines 132-139
    let (acts, rezip) :=
      if w.pkgdir_exists then ([Action.removeTree "python"], true)
      else ([], rezip0)
    { err := none, info := { info0 with image_id := none }
      actions := acts ++ [Action.makeDir directory], rezip := rezip
      pkgdir_exists := false, package_files := [], img := none }
  else
    -- lines 141-154: nested build_image
    let imgOut := build_image_model w.img w.pkg_info_file sha256hex []
      requirements constraints system_packages platform python_version
      system_image python_image lambda_image container_name directory
      freeze rebuild
    match imgOut.result with
    | .error e =>
      { err := some e, info := info0, actions := imgOut.actions
        rezip := rezip0, pkgdir_exists := w.pkgdir_exists
        package_files := [], img := some imgOut }
    | .ok _ =>
      -- line 156: docker.get_image(image) — the id the successful
      -- build_image call left for the lambda layer
      let image_id := imgOut.lambda_id
      -- lines 158-212
      if rebuild || info0.image_id ≠ image_id || ¬ w.pkgdir_exists then
        let info := { info0 with image_id := image_id }
        let acts := imgOut.actions
          ++ (if w.pkgdir_exists then [Action.removeTree "python"] else [])
          ++ [Action.makeDir "python"]
        match acquire_container info0.container w.containers w.start1
          w.start2 image_name container_name with
        | (cacts, .error msg) =>
          { err := some (.external msg), info := info
            actions := acts ++ cacts, rezip := true, pkgdir_exists := true
            package_files := [], img := some imgOut }
        | (cacts, .ok cid) =>
          -- lines 197-212: copy the package listings and the new packages,
          -- then stop the container
          let copies :=
            (w.installed_locations.eraseDups.filter
              (· ∉ w.base_locations)).map
              (fun name => Action.copyFromContainer cid name "python")
          { err := none, info := info
            actions := acts ++ cacts
              ++ [Action.copyFromContainer cid "/root/base-python" "base",
                Action.copyFromContainer cid "/root/installed-python"
                  "installed"]
              ++ copies ++ [Action.stopContainer cid]
            rezip := true, pkgdir_exists := true
            package_files := w.pkgdir_contents, img := some imgOut }
      else
        { err := none, info := info0, actions := imgOut.actions
          rezip := rezip0, pkgdir_exists := true
          package_files := w.pkgdir_contents, img := some imgOut }

structure ZipOut where
  actions : List Action
  result : Except BuildError Unit
  persisted : Option ZipInfo
  zip_state : Option (List Nat)
  pkgdir_exists : Bool
  img : Option ImgOut

/-- Final state of `package-info.json` after a `build_zip` run: rewritten by
the nested `build_image` when that ran and persisted, untouched otherwise. -/
def ZipOut.pkg_info_final (out : ZipOut) (before : InfoFile PackageInfo) :
    InfoFile PackageInfo :=
  match out.img with
  | some o =>
    match o.persisted with
    | some d => .parsed d
    | none => before
  | none => before

/-- Final state of `zip-info.json` after a `build_zip` run: the persisted
document when one was written, the previous file otherwise. -/
def ZipOut.zip_info_final (out : ZipOut) (before : InfoFile ZipInfo) :
    InfoFile ZipInfo :=
  match out.persisted with
  | some z => .parsed z
  | none => before

/-- A `package-info.json` document is well formed when a version-matching
parse carries no stray `files` entry: `build_image` itself never records
one (it only ever persists the empty document or one built by
`mkImageInfo`, which leaves `files` untouched from the loaded document),
so every document the tool writes satisfies this. -/
def PackageInfoFileWF : InfoFile PackageInfo → Prop
  | .parsed d => d.files.getD [] = []
  | _ => True

/-- The world a second `build_zip` invocation sees when nothing external
changed after the first one: the images are as the first call's
`build_image` left them, the info documents are as persisted, and the
package directory and the zip artifact are as the first call left them. -/
def secondWorld (w1 : ZipWorld) (out1 : ZipOut) : ZipWorld :=
  { img := (match out1.img with
      | some o =>
        { w1.img with get_system := o.system_id, get_python := o.python_id, get_lambda := o.lambda_id }
      | none => w1.img)
    pkg_info_file := out1.pkg_info_final w1.pkg_info_file
    containers := w1.containers
    start1 := w1.start1
    start2 := w1.start2
    base_locations := w1.base_locations
    installed_locations := w1.installed_locations
    pkgdir_exists := out1.pkgdir_exists
    pkgdir_contents := w1.pkgdir_contents
    zip_state := out1.zip_state }

/-- Lines 216-222 (beyond the `rezip` flag): the rezip gate — stale file
hashes, a changed prefix, a missing artifact, or an artifact whose on-disk
hash no longer matches the recorded one (`not filepath.exists()`
short-circuits in front of the hash comparison). -/
def zip_gate (sha256hex : List Nat → String) (file_hashes : Hashes)
    (zippedPre : Option (List String)) (zip_state : Option (List Nat))
    (info1 : ZipInfo) : Bool :=
  info1.files.getD [] ≠ file_hashes
  || info1.pre ≠ zippedPre
  || match zip_state with
    | none => true
    | some bytes => info1.zip ≠ get_file_hash sha256hex bytes

/-- `build_zip` (`build.py` lines 37-252): load `zip-info.json` (raising on
unparsable content before the `try` block), run the python stage, apply the
rezip gate (line 216-222), and on any body exception delete the artifact,
clear the info document, persist it and re-raise (lines 235-252). -/
def build_zip_model (w : ZipWorld) (zipEncode : List ZipEntry → List Nat)
    (sha256hex : List Nat → String) (zipInfoFile : InfoFile ZipInfo)
    (files requirements constraints : List (String × PathObj))
    (system_packages : List String)
    (ignoreArg filetypesArg : Option (List String))
    (zippedPre : Option (List String))
    (image_name system_image python_image lambda_image container_name :
      String)
    (platform python_version directory : String)
    (freeze rebuild : Bool) : ZipOut :=
  match load_zip_info zipInfoFile with
  | .error e =>
    -- json.load raised at line 113, outside try/finally: nothing persisted,
    -- nothing deleted
    { actions := [], result := .error e, persisted := none
      zip_state := w.zip_state, pkgdir_exists := w.pkgdir_exists
      img := none }
  | .ok (info0, forced) =>
    let rezip0 := rebuild || forced
    let stage := zip_python_stage w sha256hex requirements constraints
      system_packages image_name system_image python_image lambda_image
      container_name platform python_version directory freeze rebuild
      info0 rezip0
    match stage.err with
    | some e =>
      -- lines 235-252: unlink the artifact if present, clear the document,
      -- persist it, re-raise
      { actions := stage.actions
          ++ (if w.zip_state.isSome then [Action.unlinkFile "package.zip"]
            else [])
        result := .error e, persisted := some ZipInfo.empty
        zip_state := none, pkgdir_exists := stage.pkgdir_exists
        img := stage.img }
    | none =>
      let file_hashes := get_file_hashes sha256hex files
      let info1 := stage.info
      if stage.rezip || zip_gate sha256hex file_hashes zippedPre
          w.zip_state info1 then
        let info2 := { info1 with files := some file_hashes, pre := zippedPre }
        let entries := zip_package (files ++ stage.package_files)
          (zippedPre.getD []) ignoreArg filetypesArg
        let bytes := zipEncode entries
        let info3 := { info2 with
          zip := get_file_hash sha256hex bytes }
        { actions := stage.actions ++ [Action.writeZip "package.zip"]
          result := .ok (), persisted := some info3
          zip_state := some bytes, pkgdir_exists := stage.pkgdir_exists
          img := stage.img }
      else
        { actions := stage.actions, result := .ok ()
          persisted := some info1, zip_state := w.zip_state
          pkgdir_exists := stage.pkgdir_exists, img := stage.img }

/-! ## The package diff engine: `copy_system_packages`
(`plzdocker.py` lines 503-661)

The sandbox is abstracted by `SysEnv`: `repoquery name` is the line list of
`repoquery --list name`, and `fileExists` the success of the `ls -L`
existence probe.  The current package listing (`list_system_packages`, whose
`yum list installed` output parsing is an external-format concern) is passed
in as `packages`.  Tracked inventories are insertion-ordered dictionaries,
modelled as association lists with unique keys. -/

structure PkgRecord where
  version : String
  files : List String
deriving Repr, DecidableEq

/-- `desired_files` values may be a single path string or a list
(`plzdocker.py` lines 599-602 normalizes the former). -/
inductive FileSpec where
  | one (f : String)
  | many (fs : List String)
deriving Repr, DecidableEq

inductive SysAction where
  | removeFile (path : String)
  | runRepoquery (pkg : String)
  | checkFile (path : String)
  | copyFile (path : String)
deriving Repr, DecidableEq

structure SysEnv where
  repoquery : String → List String
  fileExists : String → Bool

/-- Python dict assignment: update in place, else append. -/
def alistSet {α : Type} (name : String) (v : α) :
    List (String × α) → List (String × α)
  | [] => [(name, v)]
  | p :: rest =>
    if p.1 = name then (name, v) :: rest else p :: alistSet name v rest

/-- Python `dict.pop(name, default)`: the removed value and the remainder. -/
def alistPop {α : Type} (name : String) (l : List (String × α)) :
    Option α × List (String × α) :=
  (l.lookup name, l.filter (fun p => p.1 ≠ name))

/-- `_delete_system_files` (lines 647-660): each file is removed from the
shared output area by its final path component; per-file failures are logged
and swallowed. -/
def delete_system_files (files : List String) : List SysAction :=
  files.map (fun f => SysAction.removeFile (posixName f))

/-- Lines 596-622: resolve a package's file list — the caller-supplied list
when one exists, otherwise `repoquery` output filtered by the desired
filetypes (matching the outermost suffix or the first dotted component, to
tolerate versioned shared-object names) and by the existence probe. -/
def resolve_file_list (env : SysEnv) (desired_filetypes : List String)
    (name : String) (spec? : Option FileSpec) :
    List SysAction × List String :=
  let file_list := match spec? with
    | some (.one f) => [f]
    | some (.many fs) => fs
    | none => []
  if file_list.isEmpty then
    let keep := env.repoquery name |>.filter (fun filename =>
      let nm := posixName filename
      pySuffix nm ≠ "" ∧
        (pySuffix nm ∈ desired_filetypes ∨
          (pySuffixes nm).headD "" ∈ desired_filetypes))
    ([SysAction.runRepoquery name] ++ keep.map SysAction.checkFile,
      keep.filter env.fileExists)
  else ([], file_list)

structure SysState where
  installed : List (String × PkgRecord)
  desired : List (String × FileSpec)
  actions : List SysAction
  all_copied : List String

/-- Lines 594-642: the shared tail of an install/update — resolve the file
list, copy every resolved file into the shared output area, and record the
package if and only if at least one file was copied. -/
def copy_one_install (env : SysEnv) (desired_filetypes : List String)
    (name version : String) (st : SysState) : SysState :=
  let (spec?, desired') := alistPop name st.desired
  let (racts, file_list) :=
    resolve_file_list env desired_filetypes name spec?
  { installed :=
      if file_list.isEmpty then st.installed
      else alistSet name ⟨version, file_list⟩ st.installed
    desired := desired'
    actions := st.actions ++ racts ++ file_list.map SysAction.copyFile
    all_copied := st.all_copied ++ file_list }

/-- Lines 569-592: classify one entry of the sandbox's current package
listing. -/
def copy_one (env : SysEnv) (base_packages : List (String × String))
    (desired_filetypes includePkgs skip : List String)
    (st : SysState) (pkg : String × String) : SysState :=
  let (name, version) := pkg
  if name ∈ skip then st
  else
    match st.installed.lookup name with
    | some record =>
      if version = record.version then st
      else
        -- updated: drop the record's file list before deleting the files
        let st := { st with
          installed := alistSet name { record with files := [] } st.installed
          actions := st.actions ++ delete_system_files record.files }
        copy_one_install env desired_filetypes name version st
    | none =>
      if base_packages.lookup name = none ∨ name ∈ includePkgs then
        copy_one_install env desired_filetypes name version st
      else if some version ≠ base_packages.lookup name then
        copy_one_install env desired_filetypes name version st
      else st

structure SysResult where
  installed : List (String × PkgRecord)
  actions : List SysAction
  all_copied : List String

/-- `copy_system_packages` (lines 503-644).  The `skip` prologue (lines
553-565) removes each tracked skipped package's files and drops its entry
(Python iterates the `skip` set in an unspecified order; the resulting
inventory does not depend on it). -/
def copy_system_packages (env : SysEnv)
    (base_packages : List (String × String))
    (installed_packages : List (String × PkgRecord))
    (packages : List (String × String))
    (desired_files : List (String × FileSpec))
    (desired_filetypes : List String)
    (includePkgs skip : List String) : SysResult :=
  let prologue := skip.foldl
    (fun (acc : List (String × PkgRecord) × List SysAction) name =>
      match acc.1.lookup name with
      | some record =>
        (acc.1.filter (fun p => p.1 ≠ name),
          acc.2 ++ delete_system_files record.files)
      | none => acc)
    (installed_packages, [])
  let final := packages.foldl
    (copy_one env base_packages desired_filetypes includePkgs skip)
    { installed := prologue.1, desired := desired_files
      actions := prologue.2, all_copied := [] }
  { installed := final.installed, actions := final.actions
    all_copied := final.all_copied }

/-! ## A concrete world for exercising two consecutive `build_zip` runs -/

def idemEncoder : List ZipEntry → List Nat := fun _ => [9]

def idemSha : List Nat → String := fun _ => "h"

def idemImage : ImageOps where
  get_system := none
  get_python := none
  get_lambda := none
  build_system := .ok "s"
  build_python := .ok "p"
  build_lambda := .ok "l"
  start_freeze := .error "z"
  freeze_containers := []

def idemWorld : ZipWorld where
  img := idemImage
  pkg_info_file := .missing
  containers := []
  start1 := .error "x"
  start2 := .error "x"
  base_locations := []
  installed_locations := []
  pkgdir_exists := false
  pkgdir_contents := []
  zip_state := none

def idemRun1 : ZipOut :=
  build_zip_model idemWorld idemEncoder idemSha .missing [] [] [] [] none
    none none "im" "si" "pi" "li" "cn" "plat" "3.7" "dir" false false

def idemRun2 : ZipOut :=
  build_zip_model (secondWorld idemWorld idemRun1) idemEncoder idemSha
    (idemRun1.zip_info_final .missing) [] [] [] [] none none none "im"
    "si" "pi" "li" "cn" "plat" "3.7" "dir" false false

end Plz

namespace Plz.SpecModel

/-!
Modelled from the spec: the per-requirement python stage of the earlier
pipeline (`process_requirements`, imported by `tests/test_build.py`) is not
under `src/`; only its callee `plz.plzdocker.pip_install` (whose comment
states "If we're calling pip_install, it's because our current version
doesn't meet our requirements") and its tests are.  Spec §4.5 Stage P:
"Skip installing if a recorded installed version already satisfies the new
specifier. Otherwise install"; spec §9 models requirement lines as the
tagged variant `PlainRequirement | VcsRequirement | Unparseable` with the
short-circuit pattern-matching on `PlainRequirement`, and has VCS/opaque
lines installed unconditionally and tracked by raw line.
-/

abbrev Version := List Nat

inductive VOp where
  | veq | vne | vlt | vle | vgt | vge
deriving Repr, DecidableEq

def vCompare : Version → Version → Ordering
  | [], bs => if bs.all (· = 0) then .eq else .lt
  | a :: as, [] => if a = 0 then vCompare as [] else .gt
  | a :: as, b :: bs =>
    if a < b then .lt else if b < a then .gt else vCompare as bs

def satisfiesClause (v : Version) (c : VOp × Version) : Bool :=
  match c.1, vCompare v c.2 with
  | .veq, .eq => true
  | .vne, .lt | .vne, .gt => true
  | .vlt, .lt => true
  | .vle, .lt | .vle, .eq => true
  | .vgt, .gt => true
  | .vge, .gt | .vge, .eq => true
  | _, _ => false

/-- A recorded version satisfies a specifier when it satisfies every
comma-separated clause. -/
def satisfies (v : Version) (spec : List (VOp × Version)) : Bool :=
  spec.all (satisfiesClause v)

inductive Requirement where
  | plain (name : String) (spec : List (VOp × Version))
  | vcs (nameHint : String) (raw : String)
  | unparseable (raw : String)
deriving Repr, DecidableEq

inductive PipAction where
  | pipInstall (target : String)
deriving Repr, DecidableEq

/-- Modelled from the spec (§4.5 Stage P, §9): process one requirement line
against the recorded installed inventory.  `resolved` abstracts the
post-install version discovery (module import, then package-metadata
fallback). -/
def process_requirement (resolved : String → Version)
    (installed : List (String × Version)) :
    Requirement → List PipAction × List (String × Version)
  | .plain name spec =>
    match installed.lookup name with
    | some v =>
      if satisfies v spec then ([], installed)
      else ([.pipInstall name], alistSet name (resolved name) installed)
    | none => ([.pipInstall name], alistSet name (resolved name) installed)
  | .vcs hint raw => ([.pipInstall raw], alistSet hint (resolved hint) installed)
  | .unparseable raw =>
    ([.pipInstall raw], alistSet raw (resolved raw) installed)

end Plz.SpecModel

namespace Plz

/-! ## Theorems -/

/-- C6 (counterexample): the content fingerprinter does not map an existing
empty file to a sentinel distinct from absence.  `get_file_hash` returns
`None` on empty contents, `get_file_hashes` drops `None` entries, so the
fingerprint of `src/` containing only the empty file `empty.py` is the empty
map — exactly the fingerprint of `src/` without that file. -/
theorem empty_file_hash_counterexample :
    get_file_hash (fun _ => "x") [] = none ∧
    get_file_hashes (fun _ => "x")
        [("src", PathObj.dir [("empty.py", PathObj.file [])])] =
      get_file_hashes (fun _ => "x") [("src", PathObj.dir [])] := by
  constructor
  · rfl
  · simp [get_file_hashes, get_file_hash]

/-- C6 (amended): an existing empty file contributes nothing to the
fingerprint: for every hash function and path set, prepending an empty file
leaves `get_file_hashes` unchanged — empty files are indistinguishable from
absent ones, not mapped to a distinct sentinel. -/
theorem empty_file_indistinguishable_from_absent
    (sha256hex : List Nat → String) (name : String)
    (paths : List (String × PathObj)) :
    get_file_hashes sha256hex ((name, PathObj.file []) :: paths) =
      get_file_hashes sha256hex paths := by
  simp [get_file_hashes, get_file_hash]

/-- C7 (counterexample): an unparsable state document does not yield the
default state — `json.load` raises and the error propagates, for both
`package-info.json` (`build_image`) and `zip-info.json` (`build_zip`). -/
theorem load_unparsable_counterexample :
    load_package_info .unparsable = .error .jsonDecode ∧
    load_zip_info .unparsable = .error .jsonDecode ∧
    load_package_info .unparsable ≠
      .ok { version := some PACKAGE_INFO_VERSION } := by
  refine ⟨rfl, rfl, ?_⟩
  simp [load_package_info]

/-- C7 (amended): loading the persisted state documents yields the default
(never-built) state when the file is missing or its recorded schema version
mismatches the current one (for `zip-info.json` a version mismatch also
forces a rezip); unparsable content instead raises and fails the build. -/
theorem load_state_semantics :
    (load_package_info .missing =
      .ok { version := some PACKAGE_INFO_VERSION }) ∧
    (load_zip_info .missing =
      .ok ({ version := some PACKAGE_INFO_VERSION }, false)) ∧
    (∀ d : PackageInfo, d.version ≠ some PACKAGE_INFO_VERSION →
      load_package_info (.parsed d) =
        .ok { version := some PACKAGE_INFO_VERSION }) ∧
    (∀ d : ZipInfo, d.version ≠ some PACKAGE_INFO_VERSION →
      load_zip_info (.parsed d) =
        .ok ({ version := some PACKAGE_INFO_VERSION }, true)) ∧
    (load_package_info .unparsable = .error .jsonDecode) ∧
    (load_zip_info .unparsable = .error .jsonDecode) := by
  refine ⟨rfl, rfl, ?_, ?_, rfl, rfl⟩
  · intro d hd
    simp [load_package_info, hd]
  · intro d hd
    simp [load_zip_info, hd]

theorem load_state_semantics_witness :
    load_package_info (.parsed { version := some "0.1.0" }) =
      .ok { version := some PACKAGE_INFO_VERSION } :=
  load_state_semantics.2.2.1 { version := some "0.1.0" } (by decide)

/-- C8: the version-satisfying short-circuit of the python stage (modelled
from the spec, §4.5 Stage P and §9): when the recorded installed inventory
holds the requested package at a version satisfying the new plain
requirement's specifier, no install command is issued and the inventory is
unchanged. -/
theorem version_satisfying_short_circuit
    (resolved : String → SpecModel.Version)
    (installed : List (String × SpecModel.Version)) (name : String)
    (spec : List (SpecModel.VOp × SpecModel.Version))
    (v : SpecModel.Version) (h1 : installed.lookup name = some v)
    (h2 : SpecModel.satisfies v spec = true) :
    SpecModel.process_requirement resolved installed (.plain name spec) =
      ([], installed) := by
  simp [SpecModel.process_requirement, h1, h2]

/-- C8 (witness): inventory records `pkg==1.2.3`; requirement
`pkg>=1.0,<2.0` issues no install command. -/
theorem version_satisfying_short_circuit_witness :
    SpecModel.process_requirement (fun _ => []) [("pkg", [1, 2, 3])]
        (.plain "pkg" [(.vge, [1, 0]), (.vlt, [2, 0])]) =
      ([], [("pkg", [1, 2, 3])]) :=
  version_satisfying_short_circuit (fun _ => []) _ "pkg" _ [1, 2, 3]
    (by decide) (by decide)

/-- Soundness of the archive traversal: when every worklist item's
destination ends in its own name (true of the items `zip_package` seeds and
preserved when directories expand), every written entry's name avoids both
ignore sets and is the final component of its stored path. -/
theorem zip_package_go_sound (ign ift zp : List String)
    (items : List ZipItem)
    (hinv : ∀ i ∈ items, i.dest.getLast? = some i.name) :
    ∀ e ∈ zip_package_go ign ift zp items,
      e.name ∉ ign ∧ pySuffix e.name ∉ ift ∧
        e.dest.getLast? = some e.name := by
  induction items using zip_package_go.induct ign ift zp with
  | case1 => simp [zip_package_go]
  | case2 item rest hskip ih =>
    rw [zip_package_go, if_pos hskip]
    exact fun e he => ih (fun i hi => hinv i (List.mem_cons_of_mem _ hi)) e he
  | case3 item rest hskip children hobj ih =>
    rw [zip_package_go, if_neg hskip]
    rw [hobj]
    refine ih ?_
    intro i hi
    rcases List.mem_append.mp hi with hi | hi
    · exact hinv i (List.mem_cons_of_mem _ hi)
    · rcases List.mem_map.mp hi with ⟨c, _, rfl⟩
      simp [List.getLast?_concat]
  | case4 item rest hskip contents hobj ih =>
    rw [zip_package_go, if_neg hskip]
    rw [hobj]
    intro e he
    rcases List.mem_cons.mp he with rfl | he
    · push_neg at hskip
      have hd := hinv item (List.mem_cons_self _ _)
      refine ⟨hskip.1, hskip.2, ?_⟩
      simp [List.getLast?_append, hd]
    · exact ih (fun i hi => hinv i (List.mem_cons_of_mem _ hi)) e he

/-- C9: whatever ignore sets the caller supplies (including none), they are
unioned with the built-in defaults, never substituted for them; hence no
entry named `__pycache__`, `awscli`, `boto3` or `botocore` and no file with
suffix `.dist-info`, `.egg-info` or `.pyc` is ever written into the archive
(the entry's name is the final component of its stored path). -/
theorem zip_package_ignore_invariant (files : List (String × PathObj))
    (zippedPre : List String)
    (ignoreArg filetypesArg : Option (List String)) :
    ∀ e ∈ zip_package files zippedPre ignoreArg filetypesArg,
      e.name ∉ IGNORE ∧ pySuffix e.name ∉ IGNORE_FILETYPES ∧
        e.dest.getLast? = some e.name := by
  intro e he
  rw [zip_package] at he
  have hsound := zip_package_go_sound (ignoreUnion ignoreArg)
    (filetypesUnion filetypesArg) zippedPre
    (files.map (fun f => ⟨f.1, f.2, [f.1]⟩))
    (by
      intro i hi
      rcases List.mem_map.mp hi with ⟨f, _, rfl⟩
      simp)
    e he
  refine ⟨fun hmem => hsound.1 ?_, fun hmem => hsound.2.1 ?_, hsound.2.2⟩
  · cases ignoreArg <;> simp [ignoreUnion, hmem]
  · cases filetypesArg <;> simp [filetypesUnion, hmem]

theorem zip_package_ignore_invariant_witness :
    ("x.py" ∉ IGNORE) ∧ pySuffix "x.py" ∉ IGNORE_FILETYPES ∧
      (["x.py"].getLast? = some "x.py") := by
  have hmem : (⟨"x.py", ["x.py"], [7]⟩ : ZipEntry) ∈
      zip_package [("x.py", PathObj.file [7])] [] none none := by
    simp +decide [zip_package, zip_package_go, ignoreUnion, filetypesUnion]
  exact zip_package_ignore_invariant [("x.py", PathObj.file [7])] [] none
    none ⟨"x.py", ["x.py"], [7]⟩ hmem

theorem pyCharsLt_trans :
    ∀ (a b c : List Char), pyCharsLt a b = true → pyCharsLt b c = true →
      pyCharsLt a c = true := by
  intro a
  induction a with
  | nil =>
    intro b c h1 h2
    cases b with
    | nil => simp [pyCharsLt] at h1
    | cons y ys =>
      cases c with
      | nil => simp [pyCharsLt] at h2
      | cons z zs => simp [pyCharsLt]
  | cons x xs ih =>
    intro b c h1 h2
    cases b with
    | nil => simp [pyCharsLt] at h1
    | cons y ys =>
      cases c with
      | nil => simp [pyCharsLt] at h2
      | cons z zs =>
        simp only [pyCharsLt] at h1 h2 ⊢
        by_cases hxy : x < y
        · by_cases hyz : y < z
          · simp [lt_trans hxy hyz]
          · by_cases hzy : z < y
            · simp [hyz, hzy] at h2
            · have hEq : y = z := le_antisymm (not_lt.mp hzy) (not_lt.mp hyz)
              subst hEq
              simp [hxy]
        · by_cases hyx : y < x
          · simp [hxy, hyx] at h1
          · have hEq : x = y := le_antisymm (not_lt.mp hyx) (not_lt.mp hxy)
            subst hEq
            simp [hxy, hyx] at h1
            by_cases hxz : x < z
            · simp [hxz]
            · by_cases hzx : z < x
              · simp [hxz, hzx] at h2
              · have hEq2 : x = z :=
                  le_antisymm (not_lt.mp hzx) (not_lt.mp hxz)
                subst hEq2
                simp [hxz, hzx] at h2 ⊢
                exact ih ys zs h1 h2

theorem pylt_trans {a b c : String} (h1 : pylt a b = true)
    (h2 : pylt b c = true) : pylt a c = true :=
  pyCharsLt_trans _ _ _ h1 h2

/-- A python version below the minimum cannot also be above the maximum. -/
theorem pylt_min_not_max {pv : String}
    (h : pylt pv MIN_PYTHON_VERSION = true) :
    pylt MAX_PYTHON_VERSION pv = false := by
  by_contra hc
  have hmax : pylt MAX_PYTHON_VERSION pv = true := by
    cases hx : pylt MAX_PYTHON_VERSION pv
    · exact absurd hx hc
    · rfl
  have : pylt MAX_PYTHON_VERSION MIN_PYTHON_VERSION = true :=
    pylt_trans hmax h
  exact absurd this (by decide)

/-! Stages only ever append to the action trace. -/

theorem stageSeq_mem {a : Action} (st : StageSt) (f : StageSt → StageSt)
    (hf : ∀ s, a ∈ s.acts → a ∈ (f s).acts) (h : a ∈ st.acts) :
    a ∈ (stageSeq st f).acts := by
  unfold stageSeq
  split
  · exact h
  · exact hf st h

theorem image_stage_system_mem {a : Action} (ops : ImageOps)
    (sim pim lim : String) (rs : Bool) (st : StageSt) (h : a ∈ st.acts) :
    a ∈ (image_stage_system ops sim pim lim rs st).acts := by
  unfold image_stage_system
  split
  · cases ops.build_system <;> simp [h]
  · exact h

theorem image_stage_python_mem {a : Action} (ops : ImageOps)
    (sim pim lim : String) (rp re : Bool) (st : StageSt)
    (h : a ∈ st.acts) :
    a ∈ (image_stage_python ops sim pim lim rp re st).acts := by
  unfold image_stage_python
  split
  · cases re
    · cases ops.build_python <;> simp [h]
    · simp [h]
  · exact h

theorem image_stage_lambda_mem {a : Action} (ops : ImageOps)
    (pim lim : String) (uf fe : Bool) (st : StageSt) (h : a ∈ st.acts) :
    a ∈ (image_stage_lambda ops pim lim uf fe st).acts := by
  unfold image_stage_lambda
  split
  · cases fe
    · cases ops.build_lambda <;> simp [h]
    · simp [h]
  · exact h

theorem image_stage_freeze_mem {a : Action} (ops : ImageOps)
    (cn lim : String) (fr : Bool) (st : StageSt) (h : a ∈ st.acts) :
    a ∈ (image_stage_freeze ops cn lim fr st).acts := by
  unfold image_stage_freeze
  split
  · rcases hfb : freeze_block ops cn lim with ⟨facts, msg⟩
    cases msg <;> simp [hfb, h]
  · exact h

/-- `finishImage` never reports the version-gate error; only the gate does. -/
theorem finishImage_result_ne_bad (li : String) (info1 : PackageInfo)
    (st : StageSt) :
    (finishImage li info1 st).result ≠ .error .badPythonVersion := by
  unfold finishImage
  split <;> simp

theorem finishImage_actions (li : String) (info1 : PackageInfo)
    (st : StageSt) : (finishImage li info1 st).actions = st.acts := by
  unfold finishImage
  split <;> rfl

/-- A pending exception in the `try` block makes `build_image` persist the
empty document. -/
theorem finishImage_external (li : String) (info1 : PackageInfo)
    (st : StageSt) (msg : String)
    (h : (finishImage li info1 st).result = .error (.external msg)) :
    (finishImage li info1 st).persisted = some PackageInfo.empty := by
  unfold finishImage at h ⊢
  cases herr : st.err <;> simp [herr] at h ⊢

/-- The only load error is the JSON decode error. -/
theorem load_package_info_error (f : InfoFile PackageInfo) (e : BuildError)
    (h : load_package_info f = .error e) : e = .jsonDecode := by
  cases f with
  | missing => simp [load_package_info] at h
  | unparsable =>
    simp only [load_package_info, Except.error.injEq] at h
    exact h.symm
  | parsed d =>
    simp only [load_package_info] at h
    split at h <;> simp at h

/-- When the system gate is dirty the system stage always runs and builds
the system image (whatever the build outcome). -/
theorem image_stage_system_build_mem (ops : ImageOps)
    (sim pim lim : String) (rs : Bool) (st : StageSt) (hrs : rs = true) :
    Action.buildImage sim ∈ (image_stage_system ops sim pim lim rs st).acts := by
  unfold image_stage_system
  rw [hrs]
  cases ops.build_system <;> simp

theorem build_image_core_mem {a : Action} {ops : ImageOps}
    {sha256hex : List Nat → String}
    {files requirements constraints : List (String × PathObj)}
    {system_packages : List String} {platform pv si pi li cn : String}
    {freeze rebuild : Bool} {info0 : PackageInfo} {acts0 : List Action}
    (h : a ∈ acts0) :
    a ∈ (build_image_core ops sha256hex files requirements constraints
      system_packages platform pv si pi li cn freeze rebuild info0
      acts0).actions := by
  simp only [build_image_core]
  rw [finishImage_actions]
  refine stageSeq_mem _ _
    (fun s hs => image_stage_freeze_mem _ _ _ _ _ hs) ?_
  refine stageSeq_mem _ _
    (fun s hs => image_stage_lambda_mem _ _ _ _ _ _ hs) ?_
  refine stageSeq_mem _ _
    (fun s hs => image_stage_python_mem _ _ _ _ _ _ _ hs) ?_
  exact image_stage_system_mem _ _ _ _ _ _ (by simp [h])

/-- When the loaded document leaves the system gate dirty, the try block
deletes and rebuilds the system image. -/
theorem build_image_core_system_build {ops : ImageOps}
    {sha256hex : List Nat → String}
    {files requirements constraints : List (String × PathObj)}
    {system_packages : List String} {platform pv si pi li cn : String}
    {freeze rebuild : Bool} {info0 : PackageInfo} {acts0 : List Action}
    (hrs : (rebuild || info0.system ≠ some system_packages
      || info0.platform ≠ some platform
      || info0.pythonVersion ≠ some pv) = true) :
    Action.buildImage si ∈ (build_image_core ops sha256hex files
      requirements constraints system_packages platform pv si pi li cn
      freeze rebuild info0 acts0).actions := by
  simp only [build_image_core]
  rw [finishImage_actions]
  refine stageSeq_mem _ _
    (fun s hs => image_stage_freeze_mem _ _ _ _ _ hs) ?_
  refine stageSeq_mem _ _
    (fun s hs => image_stage_lambda_mem _ _ _ _ _ _ hs) ?_
  refine stageSeq_mem _ _
    (fun s hs => image_stage_python_mem _ _ _ _ _ _ _ hs) ?_
  exact image_stage_system_build_mem _ _ _ _ _ _ hrs

/-- C10: `build_image` compares `python_version` to its bounds as Python
strings, lexicographically: it raises `ValueError` before any docker
operation exactly when `python_version < "3.7"` in string order (the only
action so far being the `mkdir` of the local build directory), it only warns
and proceeds when `python_version > "3.9"`, and the string `"3.10"` —
numerically newer than 3.9 — compares below `"3.7"` and is rejected. -/
theorem python_version_gate (ops : ImageOps)
    (infoFile : InfoFile PackageInfo) (sha256hex : List Nat → String)
    (files requirements constraints : List (String × PathObj))
    (system_packages : List String) (platform pv si pi li cn dir : String)
    (freeze rebuild : Bool) :
    ((build_image_model ops infoFile sha256hex files requirements
        constraints system_packages platform pv si pi li cn dir freeze
        rebuild).result = .error .badPythonVersion ↔
      pylt pv MIN_PYTHON_VERSION = true) ∧
    (pylt pv MIN_PYTHON_VERSION = true →
      (build_image_model ops infoFile sha256hex files requirements
        constraints system_packages platform pv si pi li cn dir freeze
        rebuild).actions = [Action.makeDir dir]) ∧
    (pylt MAX_PYTHON_VERSION pv = true →
      Action.logWarning ∈ (build_image_model ops infoFile sha256hex files
        requirements constraints system_packages platform pv si pi li cn dir
        freeze rebuild).actions) ∧
    (pylt "3.10" MIN_PYTHON_VERSION = true ∧
      pylt MAX_PYTHON_VERSION "3.10" = false) := by
  cases hmin : pylt pv MIN_PYTHON_VERSION with
  | true =>
    have hmax := pylt_min_not_max hmin
    refine ⟨?_, ?_, ?_, by decide⟩
    · simp [build_image_model, hmin, hmax]
    · intro _
      simp [build_image_model, hmin, hmax]
    · intro hc
      exact absurd hc (by simp [hmax])
  | false =>
    refine ⟨?_, ?_, ?_, by decide⟩
    · simp only [Bool.false_eq_true, iff_false]
      intro hres
      simp only [build_image_model, hmin, Bool.false_eq_true, and_false,
        if_false] at hres
      cases hload : load_package_info infoFile with
      | error e =>
        rw [hload] at hres
        have he : e = .jsonDecode := load_package_info_error _ _ hload
        subst he
        simp at hres
      | ok info0 =>
        rw [hload] at hres
        exact absurd hres (finishImage_result_ne_bad _ _ _)
    · intro hc
      exact absurd hc (by simp [hmin])
    · intro hc
      simp only [build_image_model, hmin, hc, Bool.false_eq_true, and_false,
        not_true_eq_false, false_and, if_false]
      cases hload : load_package_info infoFile with
      | error e => simp [hc]
      | ok info0 =>
        exact build_image_core_mem (by simp [hc])

theorem python_version_gate_witness :
    (build_image_model ⟨none, none, none, .ok "s", .ok "p", .ok "l",
        .ok "c", []⟩ .missing (fun _ => "h") [] [] [] [] "linux/amd64"
        "3.10" "si" "pi" "li" "cn" "build" false false).actions =
      [Action.makeDir "build"] :=
  (python_version_gate ⟨none, none, none, .ok "s", .ok "p", .ok "l",
      .ok "c", []⟩ .missing (fun _ => "h") [] [] [] [] "linux/amd64"
      "3.10" "si" "pi" "li" "cn" "build" false false).2.1 (by decide)

/-- File resolution never removes anything. -/
theorem removeFile_not_in_resolve (env : SysEnv) (dft : List String)
    (name : String) (spec? : Option FileSpec) (p : String) :
    SysAction.removeFile p ∉ (resolve_file_list env dft name spec?).1 := by
  unfold resolve_file_list
  split <;> dsimp only <;> (try split) <;> simp

/-- C3: diff minimality of the package diff engine.  For baseline `{a: 1}`,
empty installed inventory, no skip/include, and a sandbox currently listing
`{a: 1, b: 2}`, `copy_system_packages` performs no file copy or removal for
`a` — the only actions are `b`'s file resolution and the copies of `b`'s
resolved files, and no removal happens at all — and it records exactly the
one new package `b` in the installed inventory, provided `b` resolves to at
least one file. -/
theorem copy_system_packages_diff_minimal (env : SysEnv)
    (desired_files : List (String × FileSpec))
    (desired_filetypes : List String)
    (hb : (resolve_file_list env desired_filetypes "b"
      (desired_files.lookup "b")).2 ≠ []) :
    (copy_system_packages env [("a", "1")] [] [("a", "1"), ("b", "2")]
      desired_files desired_filetypes [] []).installed =
      [("b", ⟨"2", (resolve_file_list env desired_filetypes "b"
        (desired_files.lookup "b")).2⟩)] ∧
    (copy_system_packages env [("a", "1")] [] [("a", "1"), ("b", "2")]
      desired_files desired_filetypes [] []).actions =
      (resolve_file_list env desired_filetypes "b"
        (desired_files.lookup "b")).1 ++
      ((resolve_file_list env desired_filetypes "b"
        (desired_files.lookup "b")).2.map SysAction.copyFile) ∧
    (∀ p, SysAction.removeFile p ∉
      (copy_system_packages env [("a", "1")] [] [("a", "1"), ("b", "2")]
        desired_files desired_filetypes [] []).actions) := by
  have hne : ((resolve_file_list env desired_filetypes "b"
      (desired_files.lookup "b")).2).isEmpty = false := by
    cases hx : (resolve_file_list env desired_filetypes "b"
      (desired_files.lookup "b")).2 with
    | nil => exact absurd hx hb
    | cons y ys => rfl
  have hacts : (copy_system_packages env [("a", "1")] []
      [("a", "1"), ("b", "2")] desired_files desired_filetypes []
      []).actions =
      (resolve_file_list env desired_filetypes "b"
        (desired_files.lookup "b")).1 ++
      ((resolve_file_list env desired_filetypes "b"
        (desired_files.lookup "b")).2.map SysAction.copyFile) := by
    simp [copy_system_packages, copy_one, copy_one_install, alistPop, hne]
  refine ⟨?_, hacts, ?_⟩
  · simp [copy_system_packages, copy_one, copy_one_install, alistPop, hne,
      alistSet]
  · intro p
    rw [hacts]
    intro hmem
    rcases List.mem_append.mp hmem with hmem | hmem
    · exact removeFile_not_in_resolve env desired_filetypes "b"
        (desired_files.lookup "b") p hmem
    · rcases List.mem_map.mp hmem with ⟨x, _, hx⟩
      exact SysAction.noConfusion hx

theorem copy_system_packages_diff_minimal_witness :
    (copy_system_packages
        ⟨fun n => if n = "b" then ["/usr/lib64/libb.so.2"] else [],
          fun _ => true⟩
        [("a", "1")] [] [("a", "1"), ("b", "2")] [] [".so"] []
        []).installed =
      [("b", ⟨"2", ["/usr/lib64/libb.so.2"]⟩)] := by
  have h := copy_system_packages_diff_minimal
    ⟨fun n => if n = "b" then ["/usr/lib64/libb.so.2"] else [],
      fun _ => true⟩ [] [".so"] (by decide)
  exact h.1.trans (by decide)

/-- C5 (counterexample): a `start_container` failure is not always fatal
and is auto-retried — with a recorded container id that is no longer listed
(the state document records `"container": "old"`), `build_zip`'s container
block deletes the recorded container and issues a second
`start_container` attempt for the same name; here the retry even succeeds,
so the failure never reaches the caller. -/
theorem container_retry_counterexample :
    acquire_container (some "old") [] (.error "boom") (.ok "new") "img"
        "cont" =
      ([Action.getContainers "cont", Action.startContainer "img" "cont",
        Action.deleteContainer "old", Action.startContainer "img" "cont"],
        .ok "new") ∧
    ((acquire_container (some "old") [] (.error "boom") (.ok "new") "img"
        "cont").1.countP (fun a => match a with
          | .startContainer _ _ => true
          | _ => false) = 2) := by
  constructor
  · rfl
  · rfl

/-- C5 (amended): with no recorded container id, a failure starting the
sandbox container propagates unmodified after exactly one start attempt;
with a recorded id that is no longer listed, the recorded container is
deleted and exactly one further start attempt is issued for the same name,
whose outcome (success or failure) is final. -/
theorem container_start_failure_behavior (containers : List String)
    (s2 : Except String String) (img cn cid e : String) :
    (acquire_container none containers (.error e) s2 img cn =
      ([Action.getContainers cn, Action.startContainer img cn],
        .error e)) ∧
    (cid ∉ containers →
      acquire_container (some cid) containers (.error e) s2 img cn =
        ([Action.getContainers cn, Action.startContainer img cn,
          Action.deleteContainer cid, Action.startContainer img cn],
          s2)) := by
  constructor
  · rfl
  · intro hmem
    simp [acquire_container, hmem]

/-- C4 (counterexample): an interruption after Stage S completed but before
Stage P completed does not make the next run re-run only Stage P.  Run 1:
fresh state, the system image builds (`ok "sid"`), the python image build
raises; the whole document is cleared and persisted empty.  Run 2 loads the
empty document, finds its schema version missing, falls back to the default
state and so sees every gate dirty: it deletes and rebuilds the system
image — Stage S re-runs. -/
theorem monotonic_recovery_counterexample :
    (build_image_model
        ⟨none, none, none, .ok "sid", .error "interrupted", .ok "lid",
          .ok "c", []⟩
        .missing (fun _ => "H") [] [("requirements.txt", PathObj.file [1])]
        [] [] "linux/amd64" "3.9" "plz-system" "plz-python" "plz"
        "plz-container" "build" false false).result =
      .error (.external "interrupted") ∧
    (build_image_model
        ⟨none, none, none, .ok "sid", .error "interrupted", .ok "lid",
          .ok "c", []⟩
        .missing (fun _ => "H") [] [("requirements.txt", PathObj.file [1])]
        [] [] "linux/amd64" "3.9" "plz-system" "plz-python" "plz"
        "plz-container" "build" false false).system_id = some "sid" ∧
    (build_image_model
        ⟨none, none, none, .ok "sid", .error "interrupted", .ok "lid",
          .ok "c", []⟩
        .missing (fun _ => "H") [] [("requirements.txt", PathObj.file [1])]
        [] [] "linux/amd64" "3.9" "plz-system" "plz-python" "plz"
        "plz-container" "build" false false).persisted =
      some PackageInfo.empty ∧
    Action.buildImage "plz-system" ∈
      (build_image_model
        ⟨some "sid", none, none, .ok "sid2", .ok "pid", .ok "lid2",
          .ok "c", []⟩
        (.parsed PackageInfo.empty) (fun _ => "H") []
        [("requirements.txt", PathObj.file [1])] [] [] "linux/amd64" "3.9"
        "plz-system" "plz-python" "plz" "plz-container" "build" false
        false).actions := by
  refine ⟨?_, ?_, ?_, ?_⟩ <;>
    simp +decide [build_image_model, build_image_core, load_package_info,
      mkImageInfo, image_stage_system, image_stage_python,
      image_stage_lambda, image_stage_freeze, stageSeq, finishImage,
      get_file_hashes, get_file_hash, PackageInfo.empty]

/-- C4 (amended): recovery is a full rebuild, not a minimal one.  A run of
`build_image` interrupted by an exception inside its try block persists the
empty state document; a following run with identical inputs that loads that
empty document sees a schema-version mismatch, falls back to the default
(never-built) state, finds the system gate dirty and re-runs Stage S (and
hence every later stage) — not only Stage P. -/
theorem recovery_full_rebuild (ops1 ops2 : ImageOps)
    (infoFile : InfoFile PackageInfo) (sha256hex : List Nat → String)
    (files requirements constraints : List (String × PathObj))
    (system_packages : List String) (platform pv si pi li cn dir : String)
    (freeze rebuild : Bool) (msg : String)
    (hfail : (build_image_model ops1 infoFile sha256hex files requirements
      constraints system_packages platform pv si pi li cn dir freeze
      rebuild).result = .error (.external msg)) :
    (build_image_model ops1 infoFile sha256hex files requirements
      constraints system_packages platform pv si pi li cn dir freeze
      rebuild).persisted = some PackageInfo.empty ∧
    Action.buildImage si ∈
      (build_image_model ops2 (.parsed PackageInfo.empty) sha256hex files
        requirements constraints system_packages platform pv si pi li cn
        dir freeze rebuild).actions := by
  by_cases hg : (¬ pylt MAX_PYTHON_VERSION pv = true ∧
      pylt pv MIN_PYTHON_VERSION = true)
  · exfalso
    simp only [build_image_model] at hfail
    rw [if_pos hg] at hfail
    simp at hfail
  · constructor
    · simp only [build_image_model] at hfail ⊢
      rw [if_neg hg] at hfail ⊢
      cases hload : load_package_info infoFile with
      | error e =>
        rw [hload] at hfail
        have he := load_package_info_error _ _ hload
        subst he
        have h2 : (Except.error BuildError.jsonDecode :
            Except BuildError String) = .error (.external msg) := hfail
        simp at h2
      | ok info0 =>
        rw [hload] at hfail
        exact finishImage_external _ _ _ _ hfail
    · simp only [build_image_model]
      rw [if_neg hg]
      cases hload : load_package_info (.parsed PackageInfo.empty) with
      | error e => simp [load_package_info, PackageInfo.empty] at hload
      | ok info0 =>
        have hinfo : info0 = { version := some PACKAGE_INFO_VERSION } := by
          simp [load_package_info, PackageInfo.empty] at hload
          exact hload.symm
        subst hinfo
        exact build_image_core_system_build (by simp)

theorem recovery_full_rebuild_witness :
    Action.buildImage "sys" ∈
      (build_image_model ⟨some "a", some "b", some "c", .ok "s2", .ok "p2",
        .ok "l2", .ok "f", []⟩ (.parsed PackageInfo.empty) (fun _ => "H")
        [] [("r.txt", PathObj.file [2])] [] [] "linux/amd64" "3.8" "sys"
        "py" "lam" "cont" "build" false false).actions :=
  (recovery_full_rebuild
    ⟨none, none, none, .error "lost", .ok "p", .ok "l", .ok "f", []⟩
    ⟨some "a", some "b", some "c", .ok "s2", .ok "p2", .ok "l2", .ok "f",
      []⟩
    .missing (fun _ => "H") [] [("r.txt", PathObj.file [2])] [] []
    "linux/amd64" "3.8" "sys" "py" "lam" "cont" "build" false false "lost"
    (by simp +decide [build_image_model, build_image_core,
      load_package_info, mkImageInfo, image_stage_system,
      image_stage_python, image_stage_lambda, image_stage_freeze,
      stageSeq, finishImage, get_file_hashes, get_file_hash])).2

/-! Lemmas toward C1 (idempotence): characterizing a successful first run
and a gate-clean second run. -/

theorem load_zip_info_ok_version {f : InfoFile ZipInfo} {z : ZipInfo}
    {forced : Bool} (h : load_zip_info f = .ok (z, forced)) :
    z.version = some PACKAGE_INFO_VERSION := by
  cases f with
  | missing =>
    simp [load_zip_info] at h
    rw [← h.1]
  | unparsable => simp [load_zip_info] at h
  | parsed d =>
    simp only [load_zip_info] at h
    split at h
    · rename_i hv
      simp at h
      rw [← h.1]
      exact hv
    · simp at h
      rw [← h.1]

theorem load_package_info_ok_version {f : InfoFile PackageInfo}
    {info0 : PackageInfo} (h : load_package_info f = .ok info0) :
    info0.version = some PACKAGE_INFO_VERSION := by
  cases f with
  | missing =>
    simp [load_package_info] at h
    rw [← h]
  | unparsable => simp [load_package_info] at h
  | parsed d =>
    simp only [load_package_info] at h
    split at h
    · rename_i hv
      simp at h
      rw [← h]
      exact hv
    · simp at h
      rw [← h]

theorem load_package_info_ok_files {f : InfoFile PackageInfo}
    {info0 : PackageInfo} (hwf : PackageInfoFileWF f)
    (h : load_package_info f = .ok info0) :
    info0.files.getD [] = [] := by
  cases f with
  | missing =>
    simp [load_package_info] at h
    rw [← h]
    rfl
  | unparsable => simp [load_package_info] at h
  | parsed d =>
    simp only [load_package_info] at h
    split at h
    · simp at h
      rw [← h]
      exact hwf
    · simp at h
      rw [← h]
      rfl

theorem finishImage_ids (li : String) (info1 : PackageInfo) (st : StageSt) :
    (finishImage li info1 st).system_id = st.system_id ∧
    (finishImage li info1 st).python_id = st.python_id ∧
    (finishImage li info1 st).lambda_id = st.lambda_id := by
  unfold finishImage
  split <;> simp

theorem finishImage_ok {li : String} {info1 : PackageInfo} {st : StageSt}
    {x : String} (h : (finishImage li info1 st).result = .ok x) :
    st.err = none ∧ (finishImage li info1 st).persisted = some info1 := by
  have herr : st.err = none := by
    unfold finishImage at h
    cases he : st.err
    · rfl
    · rw [he] at h
      simp at h
  refine ⟨herr, ?_⟩
  unfold finishImage
  rw [herr]

theorem stageSeq_err_none {st : StageSt} {f : StageSt → StageSt}
    (h : (stageSeq st f).err = none) :
    st.err = none ∧ stageSeq st f = f st := by
  by_cases hs : st.err.isSome = true
  · unfold stageSeq at h
    rw [if_pos hs] at h
    rw [h] at hs
    simp at hs
  · constructor
    · cases he : st.err
      · rfl
      · rw [he] at hs
        simp at hs
    · unfold stageSeq
      rw [if_neg hs]

theorem image_stage_system_ok {ops : ImageOps} {sim pim lim : String}
    {rs : Bool} {st : StageSt}
    (h : (image_stage_system ops sim pim lim rs st).err = none) :
    (image_stage_system ops sim pim lim rs st).system_id.isSome = true := by
  unfold image_stage_system at h ⊢
  by_cases hc : (rs || st.system_id.isNone) = true
  · rw [if_pos hc] at h ⊢
    cases hbs : ops.build_system <;> rw [hbs] at h <;> simp_all
  · rw [if_neg hc] at h ⊢
    simp at hc
    cases hv : st.system_id
    · rw [hv] at hc
      simp at hc
    · rfl

theorem image_stage_python_ok {ops : ImageOps} {sim pim lim : String}
    {rp re : Bool} {st : StageSt} (hsys : st.system_id.isSome = true)
    (h : (image_stage_python ops sim pim lim rp re st).err = none) :
    (image_stage_python ops sim pim lim rp re st).system_id.isSome = true ∧
    (image_stage_python ops sim pim lim rp re st).python_id.isSome =
      true := by
  unfold image_stage_python at h ⊢
  by_cases hc : (rp || st.python_id.isNone) = true
  · rw [if_pos hc] at h ⊢
    cases re
    · simp only [Bool.false_eq_true, if_false] at h ⊢
      cases hbp : ops.build_python <;> rw [hbp] at h <;> simp_all
    · simp only [if_true] at h ⊢
      exact ⟨hsys, hsys⟩
  · rw [if_neg hc] at h ⊢
    simp at hc
    refine ⟨hsys, ?_⟩
    cases hv : st.python_id
    · rw [hv] at hc
      simp at hc
    · rfl

theorem image_stage_lambda_ok {ops : ImageOps} {pim lim : String}
    {uf fe : Bool} {st : StageSt} (hsys : st.system_id.isSome = true)
    (hpy : st.python_id.isSome = true)
    (h : (image_stage_lambda ops pim lim uf fe st).err = none) :
    (image_stage_lambda ops pim lim uf fe st).system_id.isSome = true ∧
    (image_stage_lambda ops pim lim uf fe st).python_id.isSome = true ∧
    (image_stage_lambda ops pim lim uf fe st).lambda_id.isSome = true := by
  unfold image_stage_lambda at h ⊢
  by_cases hc : (uf || st.lambda_id.isNone) = true
  · rw [if_pos hc] at h ⊢
    cases fe
    · simp only [Bool.false_eq_true, if_false] at h ⊢
      cases hbl : ops.build_lambda <;> rw [hbl] at h <;> simp_all
    · simp only [if_true] at h ⊢
      exact ⟨hsys, hpy, hpy⟩
  · rw [if_neg hc] at h ⊢
    simp at hc
    refine ⟨hsys, hpy, ?_⟩
    cases hv : st.lambda_id
    · rw [hv] at hc
      simp at hc
    · rfl

theorem image_stage_freeze_ids (ops : ImageOps) (cn lim : String)
    (fr : Bool) (st : StageSt) :
    (image_stage_freeze ops cn lim fr st).system_id = st.system_id ∧
    (image_stage_freeze ops cn lim fr st).python_id = st.python_id ∧
    (image_stage_freeze ops cn lim fr st).lambda_id = st.lambda_id := by
  unfold image_stage_freeze
  split
  · rcases hfb : freeze_block ops cn lim with ⟨facts, msg⟩
    cases msg <;> simp [hfb]
  · simp

theorem build_image_ok_min_false {ops : ImageOps}
    {infoFile : InfoFile PackageInfo} {sha256hex : List Nat → String}
    {files requirements constraints : List (String × PathObj)}
    {system_packages : List String} {platform pv si pi li cn dir : String}
    {freeze rebuild : Bool} {x : String}
    (h : (build_image_model ops infoFile sha256hex files requirements
      constraints system_packages platform pv si pi li cn dir freeze
      rebuild).result = .ok x) :
    pylt pv MIN_PYTHON_VERSION = false := by
  cases hmin : pylt pv MIN_PYTHON_VERSION
  · rfl
  · exfalso
    have hmax := pylt_min_not_max hmin
    simp [build_image_model, hmin, hmax] at h

/-- A successful `build_image_core` run persists the `mkImageInfo` document
and leaves all three image layers present. -/
theorem build_image_core_ok_state {ops : ImageOps}
    {sha256hex : List Nat → String}
    {files requirements constraints : List (String × PathObj)}
    {system_packages : List String} {plat pv si pi li cn : String}
    {freeze rebuild : Bool} {info0 : PackageInfo} {acts0 : List Action}
    {x : String}
    (h : (build_image_core ops sha256hex files requirements constraints
      system_packages plat pv si pi li cn freeze rebuild info0
      acts0).result = .ok x) :
    (build_image_core ops sha256hex files requirements constraints
      system_packages plat pv si pi li cn freeze rebuild info0
      acts0).persisted = some (mkImageInfo info0 plat pv system_packages
        (get_file_hashes sha256hex requirements)
        (get_file_hashes sha256hex constraints)) ∧
    (build_image_core ops sha256hex files requirements constraints
      system_packages plat pv si pi li cn freeze rebuild info0
      acts0).system_id.isSome = true ∧
    (build_image_core ops sha256hex files requirements constraints
      system_packages plat pv si pi li cn freeze rebuild info0
      acts0).python_id.isSome = true ∧
    (build_image_core ops sha256hex files requirements constraints
      system_packages plat pv si pi li cn freeze rebuild info0
      acts0).lambda_id.isSome = true := by
  simp only [build_image_core] at h ⊢
  obtain ⟨herr4, hpers⟩ := finishImage_ok h
  obtain ⟨herr3, heq4⟩ := stageSeq_err_none herr4
  obtain ⟨herr2, heq3⟩ := stageSeq_err_none herr3
  obtain ⟨herr1, heq2⟩ := stageSeq_err_none herr2
  rw [heq2] at herr2 heq3
  rw [heq2, heq3] at herr3
  have hsy1 := image_stage_system_ok herr1
  have hpy2 := image_stage_python_ok hsy1 herr2
  have hl3 := image_stage_lambda_ok hpy2.1 hpy2.2 herr3
  refine ⟨hpers, ?_, ?_, ?_⟩
  · rw [(finishImage_ids _ _ _).1, heq4,
      (image_stage_freeze_ids _ _ _ _ _).1, heq2, heq3]
    exact hl3.1
  · rw [(finishImage_ids _ _ _).2.1, heq4,
      (image_stage_freeze_ids _ _ _ _ _).2.1, heq2, heq3]
    exact hl3.2.1
  · rw [(finishImage_ids _ _ _).2.2, heq4,
      (image_stage_freeze_ids _ _ _ _ _).2.2, heq2, heq3]
    exact hl3.2.2

/-- A successful `build_image` run went through `build_image_core` on a
successfully loaded document. -/
theorem build_image_ok_state {ops : ImageOps}
    {infoFile : InfoFile PackageInfo} {sha256hex : List Nat → String}
    {files requirements constraints : List (String × PathObj)}
    {system_packages : List String} {plat pv si pi li cn dir : String}
    {freeze rebuild : Bool} {x : String}
    (h : (build_image_model ops infoFile sha256hex files requirements
      constraints system_packages plat pv si pi li cn dir freeze
      rebuild).result = .ok x) :
    ∃ info0, load_package_info infoFile = .ok info0 ∧
      build_image_model ops infoFile sha256hex files requirements
        constraints system_packages plat pv si pi li cn dir freeze
        rebuild =
      build_image_core ops sha256hex files requirements constraints
        system_packages plat pv si pi li cn freeze rebuild info0
        (if pylt MAX_PYTHON_VERSION pv = true
          then [Action.makeDir dir] ++ [Action.logWarning]
          else [Action.makeDir dir]) := by
  have hmin := build_image_ok_min_false h
  have hgate : ¬(¬ pylt MAX_PYTHON_VERSION pv = true ∧
      pylt pv MIN_PYTHON_VERSION = true) := by simp [hmin]
  simp only [build_image_model] at h ⊢
  rw [if_neg hgate] at h ⊢
  cases hload : load_package_info infoFile with
  | error e =>
    rw [hload] at h
    have h2 : (Except.error e : Except BuildError String) = .ok x := h
    simp at h2
  | ok info0 =>
    exact ⟨info0, rfl, rfl⟩

/-- The second run of `build_image_core` on the document the first run
persisted, against a docker store holding all three layers, performs no
mutation: it only re-verifies, re-persists the same document and keeps the
image ids. -/
theorem build_image_core_second_run (ops2 : ImageOps)
    (sha256hex : List Nat → String)
    (requirements constraints : List (String × PathObj))
    (system_packages : List String) (plat pv si pi li cn : String)
    (acts0 : List Action) (info1 : PackageInfo)
    (hplat : info1.platform = some plat)
    (hpv : info1.pythonVersion = some pv)
    (hsys : info1.system = some system_packages)
    (hpy : info1.python = some (get_file_hashes sha256hex requirements))
    (hcon : info1.constraint =
      some (get_file_hashes sha256hex constraints))
    (hfiles : info1.files.getD [] = [])
    (hs : ops2.get_system.isSome = true)
    (hp : ops2.get_python.isSome = true)
    (hl : ops2.get_lambda.isSome = true) :
    build_image_core ops2 sha256hex [] requirements constraints
      system_packages plat pv si pi li cn false false info1 acts0 =
      { actions := acts0 ++ [Action.verifyRunning], result := .ok li
        persisted := some info1, system_id := ops2.get_system
        python_id := ops2.get_python, lambda_id := ops2.get_lambda } := by
  obtain ⟨sv, hsv⟩ := Option.isSome_iff_exists.mp hs
  obtain ⟨pv2, hpv2⟩ := Option.isSome_iff_exists.mp hp
  obtain ⟨lv, hlv⟩ := Option.isSome_iff_exists.mp hl
  have hinfo1 : mkImageInfo info1 plat pv system_packages
      (get_file_hashes sha256hex requirements)
      (get_file_hashes sha256hex constraints) = info1 := by
    cases info1
    simp_all [mkImageInfo]
  simp [build_image_core, hsys, hplat, hpv, hpy, hcon, hfiles, hsv, hpv2,
    hlv, image_stage_system, image_stage_python, image_stage_lambda,
    image_stage_freeze, stageSeq, finishImage, get_file_hashes, hinfo1]

/-- On a second run against the document the first run persisted and a
docker store holding all three layers, `build_image` only makes the build
directory, logs at most a warning, and re-verifies the daemon: no image is
deleted, built or tagged and no container is started. -/
theorem build_image_model_second_run (ops2 : ImageOps)
    (sha256hex : List Nat → String)
    (requirements constraints : List (String × PathObj))
    (system_packages : List String) (plat pv si pi li cn dir : String)
    (info1 : PackageInfo)
    (hmin : pylt pv MIN_PYTHON_VERSION = false)
    (hver : info1.version = some PACKAGE_INFO_VERSION)
    (hplat : info1.platform = some plat)
    (hpv : info1.pythonVersion = some pv)
    (hsys : info1.system = some system_packages)
    (hpy : info1.python = some (get_file_hashes sha256hex requirements))
    (hcon : info1.constraint =
      some (get_file_hashes sha256hex constraints))
    (hfiles : info1.files.getD [] = [])
    (hs : ops2.get_system.isSome = true)
    (hp : ops2.get_python.isSome = true)
    (hl : ops2.get_lambda.isSome = true) :
    build_image_model ops2 (.parsed info1) sha256hex [] requirements
      constraints system_packages plat pv si pi li cn dir false false =
      { actions := (if pylt MAX_PYTHON_VERSION pv
          then [Action.makeDir dir, Action.logWarning]
          else [Action.makeDir dir]) ++ [Action.verifyRunning]
        result := .ok li, persisted := some info1
        system_id := ops2.get_system, python_id := ops2.get_python
        lambda_id := ops2.get_lambda } := by
  have hcoreEq := fun acts0 => build_image_core_second_run ops2 sha256hex
    requirements constraints system_packages plat pv si pi li cn acts0
    info1 hplat hpv hsys hpy hcon hfiles hs hp hl
  cases hmax : pylt MAX_PYTHON_VERSION pv <;>
    simp [build_image_model, hmin, hmax, load_package_info, hver, hcoreEq]

/-- C1: idempotence of the pipeline.  If `build_zip` succeeds once (with
the `freeze` and `rebuild` options off, per the claim's fixed-input list)
and nothing external changes — the second call sees the docker images, the
info documents, the package directory and the zip artifact exactly as the
first call left them (`secondWorld`) — then the second call with identical
inputs performs no sandbox, image, tree or artifact mutation: every
rebuild/rezip gate evaluates false, its trace holds only reads (daemon
verification, `mkdir(exist_ok=True)`, at most a version warning), the
artifact bytes are untouched, and it succeeds.  The hypothesis on the
initial `package-info.json` says it is a document the tool could have
written: on a version-matching parse it carries no stray `files` entry. -/
theorem build_zip_idempotent (w1 : ZipWorld)
    (zipEncode : List ZipEntry → List Nat) (sha256hex : List Nat → String)
    (f1 : InfoFile ZipInfo)
    (files requirements constraints : List (String × PathObj))
    (system_packages : List String)
    (ignoreArg filetypesArg : Option (List String))
    (zippedPre : Option (List String))
    (image_name si pi li cn plat pv dir : String)
    (out1 out2 : ZipOut)
    (hwf : PackageInfoFileWF w1.pkg_info_file)
    (hout1 : out1 = build_zip_model w1 zipEncode sha256hex f1 files
      requirements constraints system_packages ignoreArg filetypesArg
      zippedPre image_name si pi li cn plat pv dir false false)
    (hout2 : out2 = build_zip_model (secondWorld w1 out1) zipEncode
      sha256hex (out1.zip_info_final f1) files requirements constraints
      system_packages ignoreArg filetypesArg zippedPre image_name si pi li
      cn plat pv dir false false)
    (h1 : out1.result = .ok ()) :
    out2.actions.filter Action.isMutation = [] ∧
    out2.zip_state = out1.zip_state ∧
    out2.result = .ok () := by
  cases hload : load_zip_info f1 with
  | error e =>
    rw [hout1] at h1
    simp [build_zip_model, hload] at h1
  | ok p =>
    obtain ⟨info0, forced⟩ := p
    have hver0 := load_zip_info_ok_version hload
    by_cases hreq : requirements.isEmpty = true
    · -- no requirements: the python stage only clears the package tree
      by_cases hpk : w1.pkgdir_exists = true
      · -- the tree existed: run 1 removed it and rezipped
        have hfacts : out1.persisted = some (ZipInfo.mk info0.version none info0.container
              (some (get_file_hashes sha256hex files)) zippedPre
              (get_file_hash sha256hex (zipEncode (zip_package files
                (zippedPre.getD []) ignoreArg filetypesArg)))) ∧
            out1.zip_state = some (zipEncode (zip_package files
              (zippedPre.getD []) ignoreArg filetypesArg)) ∧
            out1.pkgdir_exists = false ∧ out1.img = none := by
          rw [hout1]
          simp [build_zip_model, hload, zip_python_stage, hreq, hpk]
        obtain ⟨hP, hZ, hD, hI⟩ := hfacts
        rw [hout2, hZ]
        simp [build_zip_model, secondWorld, ZipOut.zip_info_final,
          ZipOut.pkg_info_final, hP, hZ, hD, hI, load_zip_info, hver0,
          zip_python_stage, hreq, zip_gate, Action.isMutation]
      · rw [Bool.not_eq_true] at hpk
        by_cases hg : (forced || zip_gate sha256hex
            (get_file_hashes sha256hex files) zippedPre w1.zip_state
            { info0 with image_id := none }) = true
        · -- no tree, but the rezip gate fired
          have hfacts : out1.persisted = some (ZipInfo.mk info0.version none info0.container
                (some (get_file_hashes sha256hex files)) zippedPre
                (get_file_hash sha256hex (zipEncode (zip_package
                  files (zippedPre.getD []) ignoreArg filetypesArg)))) ∧
              out1.zip_state = some (zipEncode (zip_package files
                (zippedPre.getD []) ignoreArg filetypesArg)) ∧
              out1.pkgdir_exists = false ∧ out1.img = none := by
            rw [hout1]
            simp [build_zip_model, hload, zip_python_stage, hreq, hpk, hg]
          obtain ⟨hP, hZ, hD, hI⟩ := hfacts
          rw [hout2, hZ]
          simp [build_zip_model, secondWorld, ZipOut.zip_info_final,
            ZipOut.pkg_info_final, hP, hZ, hD, hI, load_zip_info, hver0,
            zip_python_stage, hreq, zip_gate, Action.isMutation]
        · -- no tree and nothing to rezip: run 1 already only read
          rw [Bool.not_eq_true, Bool.or_eq_false_iff] at hg
          obtain ⟨hforced, hzg⟩ := hg
          rw [hver0] at hzg
          have hfacts : out1.persisted =
                some { info0 with image_id := none } ∧
              out1.zip_state = w1.zip_state ∧
              out1.pkgdir_exists = false ∧ out1.img = none := by
            rw [hout1]
            simp [build_zip_model, hload, zip_python_stage, hreq, hpk,
              hver0, hforced, hzg]
          obtain ⟨hP, hZ, hD, hI⟩ := hfacts
          rw [hout2, hZ]
          simp [build_zip_model, secondWorld, ZipOut.zip_info_final,
            ZipOut.pkg_info_final, hP, hZ, hD, hI, load_zip_info, hver0,
            zip_python_stage, hreq, hzg, Action.isMutation]
    · -- requirements present: the nested build_image runs
      rw [Bool.not_eq_true] at hreq
      obtain ⟨M1, hM1⟩ : ∃ y, build_image_model w1.img w1.pkg_info_file
          sha256hex [] requirements constraints system_packages plat pv si
          pi li cn dir false false = y := ⟨_, rfl⟩
      cases hres : M1.result with
      | error e =>
        rw [hout1] at h1
        simp [build_zip_model, hload, zip_python_stage, hreq, hM1,
          hres] at h1
      | ok x =>
        have hresm : (build_image_model w1.img w1.pkg_info_file sha256hex
            [] requirements constraints system_packages plat pv si pi li cn
            dir false false).result = .ok x := by rw [hM1]; exact hres
        obtain ⟨pinfo0, hpload, hMeq⟩ := build_image_ok_state hresm
        have hres' := hresm
        rw [hMeq] at hres'
        obtain ⟨hPers, hS, hPy, hL⟩ := build_image_core_ok_state hres'
        rw [← hMeq, hM1] at hPers hS hPy hL
        have hmin := build_image_ok_min_false hresm
        have hpver := load_package_info_ok_version hpload
        have hpfiles := load_package_info_ok_files hwf hpload
        obtain ⟨lid, hlid⟩ := Option.isSome_iff_exists.mp hL
        have hM2 := build_image_model_second_run
          (ImageOps.mk M1.system_id M1.python_id M1.lambda_id
            w1.img.build_system w1.img.build_python w1.img.build_lambda
            w1.img.start_freeze w1.img.freeze_containers)
          sha256hex requirements constraints system_packages plat pv si pi
          li cn dir
          (mkImageInfo pinfo0 plat pv system_packages
            (get_file_hashes sha256hex requirements)
            (get_file_hashes sha256hex constraints))
          hmin (by simp [mkImageInfo, hpver]) (by simp [mkImageInfo])
          (by simp [mkImageInfo]) (by simp [mkImageInfo])
          (by simp [mkImageInfo]) (by simp [mkImageInfo])
          (by simp [mkImageInfo, hpfiles]) (by simp [hS]) (by simp [hPy])
          (by simp [hL])
        rw [hlid] at hM2
        by_cases hpk : w1.pkgdir_exists = true
        · by_cases hid : info0.image_id = some lid
          · -- the image is unchanged and the tree exists: no refresh
            by_cases hg : (forced || zip_gate sha256hex
                (get_file_hashes sha256hex files) zippedPre w1.zip_state
                info0) = true
            · -- but the rezip gate fired on run 1
              have hfacts : out1.persisted = some (ZipInfo.mk info0.version info0.image_id info0.container
                    (some (get_file_hashes sha256hex files)) zippedPre
                    (get_file_hash sha256hex (zipEncode (zip_package
                      (files ++ w1.pkgdir_contents) (zippedPre.getD [])
                      ignoreArg filetypesArg)))) ∧
                  out1.zip_state = some (zipEncode (zip_package
                    (files ++ w1.pkgdir_contents) (zippedPre.getD [])
                    ignoreArg filetypesArg)) ∧
                  out1.pkgdir_exists = true ∧ out1.img = some M1 := by
                rw [hout1]
                simp [build_zip_model, hload, zip_python_stage, hreq, hM1,
                  hres, hlid, hid, hpk, hg]
              obtain ⟨hP, hZ, hD, hI⟩ := hfacts
              rw [hout2, hZ]
              cases hmax : pylt MAX_PYTHON_VERSION pv <;>
                simp [build_zip_model, secondWorld, ZipOut.zip_info_final,
                  ZipOut.pkg_info_final, hP, hZ, hD, hI, load_zip_info,
                  hver0, zip_python_stage, hreq, hM2, hmax, hlid, hid,
                  hPers, zip_gate, Action.isMutation]
            · -- a fully clean second-run-like first run
              rw [Bool.not_eq_true, Bool.or_eq_false_iff] at hg
              obtain ⟨hforced, hzg⟩ := hg
              have hfacts : out1.persisted = some info0 ∧
                  out1.zip_state = w1.zip_state ∧
                  out1.pkgdir_exists = true ∧ out1.img = some M1 := by
                rw [hout1]
                simp [build_zip_model, hload, zip_python_stage, hreq, hM1,
                  hres, hlid, hid, hpk, hforced, hzg]
              obtain ⟨hP, hZ, hD, hI⟩ := hfacts
              rw [hout2, hZ]
              cases hmax : pylt MAX_PYTHON_VERSION pv <;>
                simp [build_zip_model, secondWorld, ZipOut.zip_info_final,
                  ZipOut.pkg_info_final, hP, hZ, hD, hI, load_zip_info,
                  hver0, zip_python_stage, hreq, hM2, hmax, hlid, hid,
                  hPers, hzg, Action.isMutation]
          · -- recorded image id differs: run 1 refreshed the tree
            rcases hacq : acquire_container info0.container w1.containers
                w1.start1 w1.start2 image_name cn with ⟨cacts, racq⟩
            cases racq with
            | error msg =>
              rw [hout1] at h1
              simp [build_zip_model, hload, zip_python_stage, hreq, hM1,
                hres, hlid, hid, hacq] at h1
            | ok cid =>
              have hfacts : out1.persisted = some (ZipInfo.mk info0.version (some lid) info0.container
                    (some (get_file_hashes sha256hex files)) zippedPre
                    (get_file_hash sha256hex (zipEncode (zip_package
                      (files ++ w1.pkgdir_contents) (zippedPre.getD [])
                      ignoreArg filetypesArg)))) ∧
                  out1.zip_state = some (zipEncode (zip_package
                    (files ++ w1.pkgdir_contents) (zippedPre.getD [])
                    ignoreArg filetypesArg)) ∧
                  out1.pkgdir_exists = true ∧ out1.img = some M1 := by
                rw [hout1]
                simp [build_zip_model, hload, zip_python_stage, hreq, hM1,
                  hres, hlid, hid, hacq]
              obtain ⟨hP, hZ, hD, hI⟩ := hfacts
              rw [hout2, hZ]
              cases hmax : pylt MAX_PYTHON_VERSION pv <;>
                simp [build_zip_model, secondWorld, ZipOut.zip_info_final,
                  ZipOut.pkg_info_final, hP, hZ, hD, hI, load_zip_info,
                  hver0, zip_python_stage, hreq, hM2, hmax, hlid, hPers,
                  zip_gate, Action.isMutation]
        · -- the package tree is missing: run 1 refreshed it
          rw [Bool.not_eq_true] at hpk
          rcases hacq : acquire_container info0.container w1.containers
              w1.start1 w1.start2 image_name cn with ⟨cacts, racq⟩
          cases racq with
          | error msg =>
            rw [hout1] at h1
            simp [build_zip_model, hload, zip_python_stage, hreq, hM1,
              hres, hlid, hpk, hacq] at h1
          | ok cid =>
            have hfacts : out1.persisted = some (ZipInfo.mk info0.version (some lid) info0.container
                  (some (get_file_hashes sha256hex files)) zippedPre
                  (get_file_hash sha256hex (zipEncode (zip_package
                    (files ++ w1.pkgdir_contents) (zippedPre.getD [])
                    ignoreArg filetypesArg)))) ∧
                out1.zip_state = some (zipEncode (zip_package
                  (files ++ w1.pkgdir_contents) (zippedPre.getD [])
                  ignoreArg filetypesArg)) ∧
                out1.pkgdir_exists = true ∧ out1.img = some M1 := by
              rw [hout1]
              simp [build_zip_model, hload, zip_python_stage, hreq, hM1,
                hres, hlid, hpk, hacq]
            obtain ⟨hP, hZ, hD, hI⟩ := hfacts
            rw [hout2, hZ]
            cases hmax : pylt MAX_PYTHON_VERSION pv <;>
              simp [build_zip_model, secondWorld, ZipOut.zip_info_final,
                ZipOut.pkg_info_final, hP, hZ, hD, hI, load_zip_info,
                hver0, zip_python_stage, hreq, hM2, hmax, hlid, hPers,
                zip_gate, Action.isMutation]

/-- The idempotence theorem at the concrete world `idemWorld`: the first
run succeeds, and the second run mutates nothing, keeps the artifact bytes
and succeeds. -/
theorem build_zip_idempotent_witness :
    idemRun1.result = .ok () ∧
    (idemRun2.actions.filter Action.isMutation = [] ∧
      idemRun2.zip_state = idemRun1.zip_state ∧
      idemRun2.result = .ok ()) := by
  have h1 : idemRun1.result = .ok () := by
    simp [idemRun1, idemWorld, build_zip_model, load_zip_info,
      zip_python_stage, zip_gate]
  exact ⟨h1, build_zip_idempotent idemWorld idemEncoder idemSha .missing
    [] [] [] [] none none none "im" "si" "pi" "li" "cn" "plat" "3.7" "dir"
    idemRun1 idemRun2 (by simp [idemWorld, PackageInfoFileWF]) rfl rfl h1⟩

/-- C2: the failure contract of `build_zip`.  Whenever an exception `e` is
raised inside the build body (the python stage, including the nested
`build_image` and the container block — every fallible step of the body),
the model deletes the zip artifact, persists the cleared (empty) state
document — clearing in particular the failing stage's and every downstream
stage's recorded state — and re-raises exactly `e`. -/
theorem build_zip_failure_contract (w : ZipWorld)
    (zipEncode : List ZipEntry → List Nat) (sha256hex : List Nat → String)
    (zipInfoFile : InfoFile ZipInfo)
    (files requirements constraints : List (String × PathObj))
    (system_packages : List String)
    (ignoreArg filetypesArg : Option (List String))
    (zippedPre : Option (List String))
    (image_name si pi li cn plat pv dir : String) (freeze rebuild : Bool)
    (info0 : ZipInfo) (forced : Bool) (e : BuildError)
    (hload : load_zip_info zipInfoFile = .ok (info0, forced))
    (herr : (zip_python_stage w sha256hex requirements constraints
      system_packages image_name si pi li cn plat pv dir freeze rebuild
      info0 (rebuild || forced)).err = some e) :
    (build_zip_model w zipEncode sha256hex zipInfoFile files requirements
      constraints system_packages ignoreArg filetypesArg zippedPre
      image_name si pi li cn plat pv dir freeze rebuild).result =
        .error e ∧
    (build_zip_model w zipEncode sha256hex zipInfoFile files requirements
      constraints system_packages ignoreArg filetypesArg zippedPre
      image_name si pi li cn plat pv dir freeze rebuild).zip_state =
        none ∧
    (build_zip_model w zipEncode sha256hex zipInfoFile files requirements
      constraints system_packages ignoreArg filetypesArg zippedPre
      image_name si pi li cn plat pv dir freeze rebuild).persisted =
        some ZipInfo.empty := by
  refine ⟨?_, ?_, ?_⟩ <;> simp [build_zip_model, hload, herr]

theorem build_zip_failure_contract_witness :
    (build_zip_model
        ⟨⟨none, none, none, .error "boom", .ok "p", .ok "l", .ok "c", []⟩,
          .missing, [], .ok "cid", .ok "cid2", [], [], false, [],
          some [1, 2]⟩
        (fun _ => [9]) (fun _ => "h") .missing []
        [("r", PathObj.file [1])] [] [] none none none "img" "si" "pi"
        "li" "cn" "linux/amd64" "3.9" "build" false false).result =
      .error (.external "boom") :=
  (build_zip_failure_contract
    ⟨⟨none, none, none, .error "boom", .ok "p", .ok "l", .ok "c", []⟩,
      .missing, [], .ok "cid", .ok "cid2", [], [], false, [], some [1, 2]⟩
    (fun _ => [9]) (fun _ => "h") .missing [] [("r", PathObj.file [1])]
    [] [] none none none "img" "si" "pi" "li" "cn" "linux/amd64" "3.9"
    "build" false false ⟨some PACKAGE_INFO_VERSION, none, none, none,
      none, none⟩ false (.external "boom") rfl
    (by simp +decide [zip_python_stage, build_image_model,
      build_image_core, load_package_info, mkImageInfo,
      image_stage_system, image_stage_python, image_stage_lambda,
      image_stage_freeze, stageSeq, finishImage, get_file_hashes,
      get_file_hash])).1

theorem container_start_failure_behavior_witness :
    acquire_container (some "stale") ["other"] (.error "boom")
        (.error "boom2") "img" "cont" =
      ([Action.getContainers "cont", Action.startContainer "img" "cont",
        Action.deleteContainer "stale", Action.startContainer "img" "cont"],
        .error "boom2") :=
  (container_start_failure_behavior ["other"] (.error "boom2") "img" "cont"
    "stale" "boom").2 (by decide)

end Plz
